import Mathlib

/-!
Verification of the survey flow engine of the `survey_demo` repository
(`form_agent/survey_data.py` and `form_agent/agent.py`).

Modelling conventions:
* Python runtime values that flow through the engine (answers are strings or
  lists of selected option strings; evaluated expressions may also yield ints
  and bools) are modelled by `PyVal`.
* A Python dict of answers is modelled by the association list `AnswerSet`
  (first binding wins, insertion order preserved, updates in place).
* A raised, uncaught Python exception is modelled by `none` in an
  `Option`-valued result.
* The snippets of Python that the catalog stores as strings and feeds to
  `evaluate_logic`'s restricted `eval` are carried as the verbatim raw string
  together with a Lean function giving the evaluation semantics of that
  snippet (`none` = the evaluation raises).  Case folding models Python's
  `str.lower`/`str.upper` on the ASCII range, which covers every comparison
  the catalog performs.
* Display-only fields of the catalog (`question`, `help_text`, `show_if`,
  `sub_fields`) are never read by the translated functions and are omitted.
-/

/-- A Python runtime value as used by the survey engine. -/
inductive PyVal where
  | str (s : String)
  | int (n : Int)
  | bool (b : Bool)
  | list (l : List String)
deriving DecidableEq, Repr

/-- The accumulated answers: a Python dict keyed by step id. -/
abbrev AnswerSet := List (String × PyVal)

/-- Dict read: first binding for the key, `none` when absent. -/
def getA (a : AnswerSet) (k : String) : Option PyVal :=
  (a.find? (fun p => p.1 == k)).map (fun p => p.2)

/-- Dict write: replace the existing binding in place, else append. -/
def setA (a : AnswerSet) (k : String) (v : PyVal) : AnswerSet :=
  match a with
  | [] => [(k, v)]
  | (k', v') :: rest => if k' == k then (k, v) :: rest else (k', v') :: setA rest k v

/-- `Output.get(k, d)` on the answer dict. -/
def outGet (a : AnswerSet) (k : String) (d : PyVal) : PyVal :=
  (getA a k).getD d

/-- Python truthiness of a `PyVal` (`if answer:` etc.). -/
def pyTruthy : PyVal → Bool
  | .str s => s ≠ ""
  | .int n => n ≠ 0
  | .bool b => b
  | .list l => l ≠ []

/-- `c` is an ASCII decimal digit. -/
def isDig (c : Char) : Bool := '0' ≤ c && c ≤ '9'

/-- Python `str.isdigit()` (ASCII digits). -/
def pyIsDigit (s : String) : Bool := s.data ≠ [] && s.data.all isDig

/-- Value of a nonempty all-digit character run. -/
def allDigitsVal (l : List Char) : Option Nat :=
  if l ≠ [] && l.all isDig then
    some (l.foldl (fun acc c => acc * 10 + (c.toNat - 48)) 0)
  else none

/-- An ASCII whitespace character (the characters Python's `strip`/`split`
treat as whitespace on the ASCII range). -/
def pyWs (c : Char) : Bool :=
  c == ' ' || c == '\t' || c == '\n' || c == '\r' || c == '\x0b' || c == '\x0c'

/-- Python `s.strip()`: drop whitespace from both ends. -/
def pyStrip (s : String) : String :=
  String.mk (((s.data.dropWhile pyWs).reverse.dropWhile pyWs).reverse)

/-- Python `int(s)` on a string: optional surrounding whitespace, an optional
sign, then decimal digits; `none` models the raised `ValueError`. -/
def pyIntOfStr (s : String) : Option Int :=
  match (pyStrip s).data with
  | '+' :: rest => (allDigitsVal rest).map Int.ofNat
  | '-' :: rest => (allDigitsVal rest).map (fun n => -(Int.ofNat n))
  | l => (allDigitsVal l).map Int.ofNat

/-- Python `int(v)` on an engine value; `none` models a raised exception
(`int` of a list or of a non-numeric string). -/
def pyIntOf : PyVal → Option Int
  | .int n => some n
  | .bool b => some (if b then 1 else 0)
  | .str s => pyIntOfStr s
  | .list _ => none

/-- `needle` is a prefix of the character list. -/
def isPre : List Char → List Char → Bool
  | [], _ => true
  | _ :: _, [] => false
  | a :: as, b :: bs => a == b && isPre as bs

/-- `needle` occurs as a contiguous segment of the character list
(Python's `needle in hay` on strings). -/
def isSeg (n : List Char) : List Char → Bool
  | [] => n.isEmpty
  | c :: rest => isPre n (c :: rest) || isSeg n rest

/-- Python `needle in hay` for strings. -/
def inStrB (needle hay : String) : Bool := isSeg needle.data hay.data

/-- Python `repr` of a string as used by `str` on a list: single quotes,
double quotes when the string contains a single quote, escaped single
quotes when it contains both kinds of quote. -/
def pyReprChars (s : String) : List Char :=
  if s.data.contains '\'' && !(s.data.contains '"') then
    '"' :: s.data ++ ['"']
  else if s.data.contains '\'' then
    '\'' :: (s.data.flatMap (fun c => if c == '\'' then ['\\', '\''] else [c])) ++ ['\'']
  else
    '\'' :: s.data ++ ['\'']

/-- The comma-separated interior of Python's `str` of a list of strings. -/
def midChars : List String → List Char
  | [] => []
  | [e] => pyReprChars e
  | e :: rest => pyReprChars e ++ (',' :: ' ' :: midChars rest)

/-- Python `str(v)`. -/
def pyStrOfVal : PyVal → String
  | .str s => s
  | .int n => toString n
  | .bool b => if b then "True" else "False"
  | .list l => String.mk ('[' :: midChars l ++ [']'])

/-- Membership of an engine value in a list of option strings
(Python `v in options`: only equal strings match). -/
def pyInList (v : PyVal) (opts : List String) : Bool :=
  match v with
  | .str s => opts.contains s
  | _ => false

/-- `v == "lit"` in Python (cross-type comparison is false). -/
def pyEqS (v : PyVal) (s : String) : Bool :=
  match v with
  | .str t => t == s
  | _ => false

/-- ASCII lower-casing of a string (Python `str.lower` on the characters the
catalog compares). -/
def pyLower (s : String) : String := String.mk (s.data.map Char.toLower)

/-- ASCII upper-casing of a string (Python `str.upper`). -/
def pyUpper (s : String) : String := String.mk (s.data.map Char.toUpper)

/-- Worker for `splitWs`: accumulates the current word (reversed). -/
def splitWsGo : List Char → List Char → List String
  | [], acc => if acc.isEmpty then [] else [String.mk acc.reverse]
  | c :: rest, acc =>
    if pyWs c then
      if acc.isEmpty then splitWsGo rest []
      else String.mk acc.reverse :: splitWsGo rest []
    else splitWsGo rest (c :: acc)

/-- Python `s.split()`: split on whitespace runs, dropping empty pieces. -/
def splitWs (s : String) : List String := splitWsGo s.data []

/-- First maximal run of decimal digits in a string:
`re.findall(r"\d+", s)[0]` when it exists. -/
def firstDigitRun (s : String) : Option String :=
  go s.data
where
  go : List Char → Option String
    | [] => none
    | c :: rest => if isDig c then some (String.mk (c :: rest.takeWhile isDig)) else go rest

/-- Lookup in a Python dict of string keys/values stored as pairs. -/
def dictLookup (pairs : List (String × String)) (k : String) : Option String :=
  (pairs.find? (fun p => p.1 == k)).map (fun p => p.2)

/-- A `min`/`max` bound in the catalog: a literal number or a deferred
expression (raw Python source plus its evaluation semantics). -/
inductive Bound where
  | int (n : Int)
  | expr (raw : String) (sem : AnswerSet → Option PyVal)

/-- A `next_step` catalog entry: a Python string (a literal step id or a
logic expression — the raw source is kept verbatim, alongside the semantics
of evaluating it, where `none` models a raised exception, e.g. the
`NameError` raised by evaluating a bare step id), or a value-keyed dict. -/
inductive NextRule where
  | str (raw : String) (sem : AnswerSet → Option PyVal)
  | dict (pairs : List (String × String))

/-- One step definition of `SURVEY_DATA` (display-only fields omitted). -/
structure StepConfig where
  type : String
  options : List String := []
  min : Option Bound := none
  max : Option Bound := none
  next_step : Option NextRule := none
  next_step_in_range : Option String := none
  next_step_out_range : Option String := none

/-- The five disqualifying affiliations of step S1, in catalog order. -/
def s1Disq : List String :=
  ["Medical Equipment Manufacturer",
   "Market Research, Advertising or Media",
   "Government Drug Approval Organization",
   "Drug Reimbursement Organization",
   "Kaiser, Kaiser Permanente, the Permanente, or the Permanente Medical Group"]

/-- The pharmaceutical-affiliation option of step S1. -/
def pharmaOpt : String :=
  "Pharmaceutical or Biotechnology manufacturer, distributor, retailer, wholesaler, or marketer of pharmaceutical products"

/-- The options of step S1, in catalog order. -/
def s1Options : List String := s1Disq ++ [pharmaOpt, "None of the above"]

/-- The fifteen topical treatments listed in the catalog's T-section. -/
def topicalOpts : List String :=
  ["OTC Topical", "Clobetasol", "Triamcinolone", "Betamethasone", "Halobetasol",
   "Calcipotriene", "Taclonex", "Fluocinonide", "Enstilar", "Duobrii", "Eucrisa",
   "Topicort", "VTAMA® (tapinarof)", "ZORYVE (roflumilast)",
   "Other Topical (Please specify)"]

/-- The thirteen systemic treatments listed in the catalog's T-section. -/
def systemicOpts : List String :=
  ["Otezla®", "Methotrexate",
   "Other Oral Systemics (e.g. leflunomide, sulfasalazine, etc.)", "Sotyktu",
   "Cosentyx®", "Taltz®", "Stelara®", "Tremfya®", "Skyrizi®", "Enbrel®",
   "Humira®", "Bimzelx® (bimekizumab)", "Other Biologic (Please specify)"]

/-- The eight biologics counted by the T1_24_spec rule, in catalog order. -/
def biologicOpts : List String :=
  ["Cosentyx®", "Taltz®", "Stelara®", "Tremfya®", "Skyrizi®", "Enbrel®",
   "Humira®", "Bimzelx® (bimekizumab)"]

/-- Semantics of the S1 `next_step` expression. -/
def semS1 : AnswerSet → Option PyVal := fun a =>
  some (.str
    (if s1Disq.any (fun x => inStrB x (pyStrOfVal (outGet a "S1" (.str "")))) then "TERMINATE"
     else if inStrB pharmaOpt (pyStrOfVal (outGet a "S1" (.str ""))) then "S2"
     else "S3"))

/-- Semantics of the S2 `next_step` expression. -/
def semS2 : AnswerSet → Option PyVal := fun a =>
  some (.str
    (if ["Paid consultant", "Clinical trial investigator", "Other (Please specify)"].any
          (fun x => inStrB x (pyStrOfVal (outGet a "S2" (.str "")))) then "TERMINATE"
     else "S3"))

/-- Semantics of the S3 `next_step` expression. -/
def semS3 : AnswerSet → Option PyVal := fun a =>
  some (.str (if inStrB "Vermont" (pyStrOfVal (outGet a "S3" (.str ""))) then "TERMINATE" else "S5"))

/-- Semantics of the S5 `next_step` expression. -/
def semS5 : AnswerSet → Option PyVal := fun a =>
  some (.str
    (if pyInList (outGet a "S5" (.str ""))
          ["General / Family / Primary care", "Internal medicine", "Other (Please specify)"]
     then "TERMINATE"
     else if pyEqS (outGet a "S5" (.str "")) "Dermatology" then "S6"
     else "S8"))

/-- Semantics of the S6 `next_step` expression. -/
def semS6 : AnswerSet → Option PyVal := fun a =>
  some (.str (if pyEqS (outGet a "S6" (.str "")) "Neither" then "TERMINATE" else "S7"))

/-- Semantics of the S8 `next_step` expression. -/
def semS8 : AnswerSet → Option PyVal := fun a =>
  some (.str
    (if pyInList (outGet a "S8" (.str "")) ["Primary Care", "Other (Please specify)"]
     then "TERMINATE" else "S9"))

/-- Semantics of the S11 `next_step` expression. -/
def semS11 : AnswerSet → Option PyVal := fun a =>
  some (.str
    (if pyInList (outGet a "S11" (.str "")) ["Government funded / VA hospital", "Other (Please Specify)"]
     then "TERMINATE" else "S12_1"))

/-- Semantics of the S12_3 `next_step` expression (the `int` casts may raise;
each conjunction and the disjunction short-circuit as in Python). -/
def semS12_3 : AnswerSet → Option PyVal := fun a =>
  let sum3 : Option Int := do
    let v1 ← pyIntOf (outGet a "S12_1" (.int 0))
    let v2 ← pyIntOf (outGet a "S12_2" (.int 0))
    let v3 ← pyIntOf (outGet a "S12_3" (.int 0))
    pure (v1 + v2 + v3)
  do
    let b1 ← if pyEqS (outGet a "S5" (.str "")) "Dermatology"
             then sum3.map (fun s => decide (s < 70)) else pure false
    if b1 then pure (PyVal.str "TERMINATE") else do
      let b2 ← if pyInList (outGet a "S5" (.str ""))
                    ["Nurse Practitioner (NP)", "Physician’s Assistant (PA)"]
               then sum3.map (fun s => decide (s < 50)) else pure false
      pure (PyVal.str (if b2 then "TERMINATE" else "S13_1"))

/-- Semantics of the S13_3 `next_step` expression (the sums are evaluated
first in each conjunct, so the `int` casts are always forced). -/
def semS13_3 : AnswerSet → Option PyVal := fun a => do
  let v1 ← pyIntOf (outGet a "S13_1" (.int 0))
  let v2 ← pyIntOf (outGet a "S13_2" (.int 0))
  let v3 ← pyIntOf (outGet a "S13_3" (.int 0))
  let s := v1 + v2 + v3
  pure (PyVal.str
    (if (decide (s < 4) && pyEqS (outGet a "S5" (.str "")) "Dermatology")
        || (decide (s < 3) && pyInList (outGet a "S5" (.str ""))
              ["Nurse Practitioner (NP)", "Physician’s Assistant (PA)"])
     then "TERMINATE" else "S14"))

/-- Semantics of the S16 `next_step` expression. -/
def semS16 : AnswerSet → Option PyVal := fun a =>
  some (.str (if pyEqS (outGet a "S16" (.str "")) "I do not consent" then "TERMINATE" else "END"))

/-- Semantics of the A1_5 `next_step` expression. -/
def semA1_5 : AnswerSet → Option PyVal := fun a =>
  some (.str
    (if pyEqS (outGet a "A1_1" (.str "")) "No" && pyEqS (outGet a "A1_2" (.str "")) "No" then "Show_4"
     else if pyEqS (outGet a "A1_3" (.str "")) "No" then "Show_5"
     else if pyEqS (outGet a "A1_1" (.str "")) "Yes" && pyEqS (outGet a "A1_2" (.str "")) "Yes" then "Show_6"
     else if pyEqS (outGet a "A1_4" (.str "")) "Yes" && pyEqS (outGet a "A1_5" (.str "")) "Yes" then "Show_7"
     else "A3"))

/-- Semantics of the A3 `next_step` expression. -/
def semA3 : AnswerSet → Option PyVal := fun a =>
  some (.str
    (if pyEqS (outGet a "A1_1" (.str "")) "Yes" && pyEqS (outGet a "A3" (.str "")) "Severe" then "Show_8"
     else if pyEqS (outGet a "A1_2" (.str "")) "Yes"
             && pyInList (outGet a "A3" (.str "")) ["Mild", "Moderate"] then "Show_9"
     else "A2"))

/-- Semantics of the A2 `next_step` expression (the `int` cast may raise and
is forced by the first comparison). -/
def semA2 : AnswerSet → Option PyVal := fun a => do
  let v ← pyIntOf (outGet a "A2" (.int 0))
  pure (PyVal.str
    (if decide (v < 2) then "Show_10"
     else if pyEqS (outGet a "A1_1" (.str "")) "Yes" && decide (v > 10) then "Show_11"
     else if pyEqS (outGet a "A1_2" (.str "")) "Yes" && decide (v ≤ 10) then "Show_12"
     else "A4BN"))

/-- Semantics of the B3 `next_step` expression. -/
def semB3 : AnswerSet → Option PyVal := fun a =>
  some (.str (if pyEqS (outGet a "B3" (.str "")) "Yes" then "B5" else "B6"))

/-- Semantics of the T1_24_spec `next_step` expression: the `int` cast of A2
is only forced when a topical is present (Python's `and` short-circuits). -/
def semT1_24_spec : AnswerSet → Option PyVal := fun a =>
  let t1s := pyStrOfVal (outGet a "T1" (.str ""))
  let other : PyVal :=
    .str (if 2 ≤ biologicOpts.countP (fun x => inStrB x t1s) then "Show_14" else "T7")
  if topicalOpts.any (fun x => inStrB x t1s) then do
    let v ← pyIntOf (outGet a "A2" (.int 0))
    if decide (v > 10) && !(systemicOpts.any (fun x => inStrB x t1s))
    then pure (PyVal.str "Show_13") else pure other
  else some other

/-- Semantics of the T7 `next_step` expression. -/
def semT7 : AnswerSet → Option PyVal := fun a =>
  some (.str (if pyEqS (outGet a "T7" (.str "")) "Yes" then "T7a" else "T8"))

/-- Semantics of the T1z `next_step` expression. -/
def semT1z : AnswerSet → Option PyVal := fun a =>
  some (.str (if pyEqS (outGet a "T1z" (.str "")) "Foam" then "T1zf" else "T2a_1"))

/-- Semantics of the T2b_3 `next_step` expression. -/
def semT2b_3 : AnswerSet → Option PyVal := fun a =>
  some (.str
    (if ["VTAMA® (tapinarof)", "ZORYVE (roflumilast)"].any
          (fun x => inStrB x (pyStrOfVal (outGet a "T1" (.str "")))) then "T2c" else "T3_A"))

/-- Semantics of the T9 `next_step` expression. -/
def semT9 : AnswerSet → Option PyVal := fun a =>
  some (.str (if inStrB "Patient refusal" (pyStrOfVal (outGet a "T9" (.str ""))) then "T9A" else "A3BSA"))

/-- Semantics of the A3BSA `next_step` expression. -/
def semA3BSA : AnswerSet → Option PyVal := fun a =>
  some (.str
    (if pyInList (outGet a "A3BSA" (.str "")) ["Somewhat likely", "Likely", "Very likely"]
     then "A5BSA" else "A10"))

/-- Semantics of the A10 `next_step` expression. -/
def semA10 : AnswerSet → Option PyVal := fun a =>
  some (.str (if pyEqS (outGet a "A10" (.str "")) "Yes" then "A10a" else "A8"))
/-- The raw `next_step` expression string of step S1. -/
def s1NextRaw : String :=
  "\x7b 'TERMINATE' if any(x in str(Output.get('S1','')) for x in ['Medical Equipment Manufacturer','Market Research, Advertising or Media','Government Drug Approval Organization','Drug Reimbursement Organization','Kaiser, Kaiser Permanente, the Permanente, or the Permanente Medical Group']) else 'S2' if 'Pharmaceutical or Biotechnology manufacturer, distributor, retailer, wholesaler, or marketer of pharmaceutical products' in str(Output.get('S1','')) else 'S3' \x7d"

/-- Catalog rows 1–22, in source order. -/
def surveyRows0 : List (String × StepConfig) := [
  ("S1", { type := "multiple_choice", options := s1Options, next_step := some (.str s1NextRaw semS1) }),
  ("S2", { type := "multiple_choice", options := ["Paid consultant", "Advisory board member", "Clinical trial investigator", "Other (Please specify)", "None of the above"], next_step := some (.str "\x7b 'TERMINATE' if any(x in str(Output.get('S2','')) for x in ['Paid consultant','Clinical trial investigator','Other (Please specify)']) else 'S3' \x7d" semS2) }),
  ("S3", { type := "multiple_choice", options := ["Alabama", "Alaska", "Arizona", "Arkansas", "California", "Colorado", "Connecticut", "D.C. - District of Columbia", "Delaware", "Florida", "Georgia", "Hawaii", "Idaho", "Illinois", "Indiana", "Iowa", "Kansas", "Kentucky", "Louisiana", "Maine", "Maryland", "Massachusetts", "Michigan", "Minnesota", "Mississippi", "Missouri", "Montana", "Nebraska", "Nevada", "New Hampshire", "New Jersey", "New Mexico", "New York", "North Carolina", "North Dakota", "Ohio", "Oklahoma", "Oregon", "Pennsylvania", "Rhode Island", "South Carolina", "South Dakota", "Tennessee", "Texas", "Utah", "Vermont", "Virginia", "Washington", "West Virginia", "Wisconsin", "Wyoming"], next_step := some (.str "\x7b 'TERMINATE' if 'Vermont' in str(Output.get('S3','')) else 'S5' \x7d" semS3) }),
  ("S5", { type := "choice", options := ["General / Family / Primary care", "Dermatology", "Internal medicine", "Nurse Practitioner (NP)", "Physician’s Assistant (PA)", "Other (Please specify)"], next_step := some (.str "\x7b 'TERMINATE' if Output.get('S5','') in ['General / Family / Primary care','Internal medicine','Other (Please specify)'] else 'S6' if Output.get('S5','') == 'Dermatology' else 'S8' \x7d" semS5) }),
  ("S6", { type := "choice", options := ["Board certified", "Board eligible", "Neither"], next_step := some (.str "\x7b 'TERMINATE' if Output.get('S6','') == 'Neither' else 'S7' \x7d" semS6) }),
  ("S7", { type := "number", min := some (.int 2), max := some (.int 35), next_step_in_range := some "S10", next_step_out_range := some "TERMINATE" }),
  ("S8", { type := "choice", options := ["Dermatology", "Primary Care", "Other (Please specify)"], next_step := some (.str "\x7b 'TERMINATE' if Output.get('S8','') in ['Primary Care','Other (Please specify)'] else 'S9' \x7d" semS8) }),
  ("S9", { type := "number", min := some (.int 2), max := some (.int 35), next_step_in_range := some "S10", next_step_out_range := some "TERMINATE" }),
  ("S10", { type := "number", min := some (.int 70), max := some (.int 100), next_step_in_range := some "S11", next_step_out_range := some "TERMINATE" }),
  ("S11", { type := "choice", options := ["Private Practice, with or without a community hospital affiliation", "Private Practice, with Academic / teaching hospital affiliation", "Academic hospital / research center", "Community hospital", "Government funded / VA hospital", "Other (Please Specify)"], next_step := some (.str "\x7b 'TERMINATE' if Output.get('S11','') in ['Government funded / VA hospital','Other (Please Specify)'] else 'S12_1' \x7d" semS11) }),
  ("S12_1", { type := "number", min := some (.int 0), next_step_in_range := some "S12_2" }),
  ("S12_2", { type := "number", min := some (.int 0), next_step_in_range := some "S12_3" }),
  ("S12_3", { type := "number", min := some (.int 0), next_step := some (.str "\x7b 'TERMINATE' if ( (Output.get('S5','') == 'Dermatology' and (int(Output.get('S12_1',0)) + int(Output.get('S12_2',0)) + int(Output.get('S12_3',0))) < 70) or (Output.get('S5','') in ['Nurse Practitioner (NP)','Physician’s Assistant (PA)'] and (int(Output.get('S12_1',0)) + int(Output.get('S12_2',0)) + int(Output.get('S12_3',0))) < 50) ) else 'S13_1' \x7d" semS12_3) }),
  ("S13_1", { type := "number", min := some (.int 0), max := some (.expr "Output['S12_1']" (fun a => getA a "S12_1")), next_step_in_range := some "S13_2" }),
  ("S13_2", { type := "number", min := some (.int 0), max := some (.expr "Output['S12_2']" (fun a => getA a "S12_2")), next_step_in_range := some "S13_3" }),
  ("S13_3", { type := "number", min := some (.int 0), max := some (.expr "Output['S12_3']" (fun a => getA a "S12_3")), next_step := some (.str "\x7b 'TERMINATE' if ( (int(Output.get('S13_1',0)) + int(Output.get('S13_2',0)) + int(Output.get('S13_3',0)) < 4 and Output.get('S5','') == 'Dermatology') or (int(Output.get('S13_1',0)) + int(Output.get('S13_2',0)) + int(Output.get('S13_3',0)) < 3 and Output.get('S5','') in ['Nurse Practitioner (NP)','Physician’s Assistant (PA)']) ) else 'S14' \x7d" semS13_3) }),
  ("S14", { type := "choice", options := ["Female", "Male", "Non-binary", "Transgender", "Intersex", "Other (Please Specify)", "Prefer not to say"], next_step := some (.dict [("default", "S16")]) }),
  ("S16", { type := "choice", options := ["I consent", "I do not consent"], next_step := some (.str "\x7b 'TERMINATE' if Output.get('S16','') == 'I do not consent' else 'END' \x7d" semS16) }),
  ("Show_1", { type := "show", next_step := some (.str "Show_3" (fun _ => none)) }),
  ("Show_2", { type := "show", next_step := some (.str "Show_3" (fun _ => none)) }),
  ("Show_3", { type := "show", next_step := some (.str "A1_1" (fun _ => none)) }),
  ("A1_1", { type := "choice", options := ["Yes", "No"], next_step := some (.str "A1_2" (fun _ => none)) })
]

/-- Catalog rows 23–44, in source order. -/
def surveyRows1 : List (String × StepConfig) := [
  ("A1_2", { type := "choice", options := ["Yes", "No"], next_step := some (.str "A1_3" (fun _ => none)) }),
  ("A1_3", { type := "choice", options := ["Yes", "No"], next_step := some (.str "A1_4" (fun _ => none)) }),
  ("A1_4", { type := "choice", options := ["Yes", "No"], next_step := some (.str "A1_5" (fun _ => none)) }),
  ("A1_5", { type := "choice", options := ["Yes", "No"], next_step := some (.str "\x7b 'Show_4' if (Output.get('A1_1','') == 'No' and Output.get('A1_2','') == 'No') else ('Show_5' if Output.get('A1_3','') == 'No' else ('Show_6' if (Output.get('A1_1','') == 'Yes' and Output.get('A1_2','') == 'Yes') else ('Show_7' if (Output.get('A1_4','') == 'Yes' and Output.get('A1_5','') == 'Yes') else 'A3'))) \x7d" semA1_5) }),
  ("Show_4", { type := "show", next_step := some (.dict [("default", "A1_1")]) }),
  ("Show_5", { type := "show", next_step := some (.dict [("default", "A1_1")]) }),
  ("Show_6", { type := "show", next_step := some (.dict [("default", "A1_1")]) }),
  ("Show_7", { type := "show", next_step := some (.dict [("default", "A1_1")]) }),
  ("A3", { type := "choice", options := ["Mild", "Moderate", "Severe"], next_step := some (.str "\x7b 'Show_8' if (Output.get('A1_1','') == 'Yes' and Output.get('A3','') == 'Severe') else ('Show_9' if (Output.get('A1_2','') == 'Yes' and Output.get('A3','') in ['Mild','Moderate']) else 'A2') \x7d" semA3) }),
  ("Show_8", { type := "show", next_step := some (.dict [("default", "A1_1")]) }),
  ("Show_9", { type := "show", next_step := some (.dict [("default", "A1_1")]) }),
  ("A2", { type := "number", min := some (.int 0), max := some (.int 100), next_step := some (.str "\x7b 'Show_10' if (int(Output.get('A2',0)) < 2) else ('Show_11' if (Output.get('A1_1','') == 'Yes' and int(Output.get('A2',0)) > 10) else ('Show_12' if (Output.get('A1_2','') == 'Yes' and int(Output.get('A2',0)) <= 10) else 'A4BN')) \x7d" semA2) }),
  ("Show_10", { type := "show", next_step := some (.dict [("default", "A1_1")]) }),
  ("Show_11", { type := "show", next_step := some (.dict [("default", "A1_1")]) }),
  ("Show_12", { type := "show", next_step := some (.dict [("default", "A1_1")]) }),
  ("A4BN", { type := "choice", options := ["Yes", "No"], next_step := some (.dict [("default", "A4")]) }),
  ("A4", { type := "number", min := some (.int 1900), max := some (.int 2007), next_step_in_range := some "A5", next_step_out_range := some "A4" }),
  ("A5", { type := "choice", options := ["Female", "Male", "Non-binary", "Transgender", "Intersex", "Other (Please Specify)"], next_step := some (.dict [("default", "A6")]) }),
  ("A6", { type := "multiple_choice", options := ["Caucasian/White", "African-American", "Asian or Pacific Islander", "Hispanic or Latino", "Native American or Alaskan Native", "Two or more races / ethnicities", "Other (Please Specify)"], next_step := some (.dict [("default", "A7")]) }),
  ("A7", { type := "composite_number", options := ["Don't know"], next_step := some (.dict [("default", "A9")]) }),
  ("A9", { type := "choice", options := ["Private PPO/HMO/Indemnity", "Medicare plus supplemental", "Medicare only", "Medicaid", "Other insurance (Please Specify)", "No insurance/Cash paying", "Don’t know"], next_step := some (.dict [("default", "B1a")]) }),
  ("B1a", { type := "number_or_unknown", options := ["Don't know"], min := some (.int 1), max := some (.int 99), next_step := some (.dict [("default", "B1b")]), next_step_in_range := some "B2" })
]

/-- Catalog rows 45–66, in source order. -/
def surveyRows2 : List (String × StepConfig) := [
  ("B1b", { type := "number_or_unknown", options := ["Don't know"], min := some (.int 1900), max := some (.int 2024), next_step := some (.dict [("default", "B2")]), next_step_in_range := some "B2" }),
  ("B2", { type := "multiple_choice", options := ["Depression", "Diabetes", "Cardiovascular disease", "High blood pressure", "High cholesterol", "Inflammatory bowel disease (including Crohn’s disease, ulcerative colitis, etc.)", "Liver disease/liver abnormalities", "Obesity", "Rheumatoid arthritis", "Skin cancer", "Behçet’s Disease", "Pulmonary conditions", "Other (Please Specify)", "None of the above"], next_step := some (.dict [("default", "B3")]) }),
  ("B3", { type := "choice", options := ["Yes", "No", "Don’t know"], next_step := some (.str "\x7b 'B5' if Output.get('B3','') == 'Yes' else 'B6' \x7d" semB3) }),
  ("B5", { type := "choice", options := ["Yes", "No, treated by Rheumatologist", "No, treated by another HCP"], next_step := some (.dict [("default", "B6")]) }),
  ("B6", { type := "multiple_choice", options := ["Nails", "Palms", "Soles", "Hand", "Feet", "Face", "Scalp", "Genitals", "Intertriginous areas", "Knees", "Legs", "Elbows", "Trunk", "Arms/forearms", "Back", "Neck", "Other (Please Specify)"], next_step := some (.dict [("default", "B7")]) }),
  ("B7", { type := "multiple_choice", options := ["Whole body itch", "Scalp itch", "Scales", "Painful skin", "Skin Redness", "Skin Thickness", "Skin Flaking", "Burning sensation", "Skin Bleeding", "Skin Stinging", "Skin tightness", "Joint pain, stiffness or swelling", "Nail changes (e.g., pitting, thickening, yellowing, etc.)", "Other (Please Specify)"], next_step := some (.dict [("default", "B8")]) }),
  ("B8", { type := "number", min := some (.int 1), max := some (.int 7), next_step_in_range := some "B10", next_step_out_range := some "B8" }),
  ("B10", { type := "number", min := some (.int 0), max := some (.int 20), next_step_in_range := some "T1", next_step_out_range := some "T1" }),
  ("T1", { type := "multiple_choice", options := ["OTC Topical", "Clobetasol", "Triamcinolone", "Betamethasone", "Halobetasol", "Calcipotriene", "Taclonex", "Fluocinonide", "Enstilar", "Duobrii", "Eucrisa", "Topicort", "VTAMA® (tapinarof)", "ZORYVE (roflumilast)", "Other Topical (Please specify)", "Otezla®", "Methotrexate", "Other Oral Systemics (e.g. leflunomide, sulfasalazine, etc.)", "Sotyktu", "Cosentyx®", "Taltz®", "Stelara®", "Tremfya®", "Skyrizi®", "Enbrel®", "Humira®", "Bimzelx® (bimekizumab)", "Other Biologic (Please specify)"], next_step := some (.str "T1b_1" (fun _ => none)) }),
  ("T1b_1", { type := "text", next_step := some (.str "T1b_2" (fun _ => none)) }),
  ("T1b_2", { type := "text", next_step := some (.str "T1b_3" (fun _ => none)) }),
  ("T1b_3", { type := "text", next_step := some (.str "T1b_4" (fun _ => none)) }),
  ("T1b_4", { type := "text", next_step := some (.str "T1b_5" (fun _ => none)) }),
  ("T1b_5", { type := "text", next_step := some (.str "T1b_6" (fun _ => none)) }),
  ("T1b_6", { type := "text", next_step := some (.str "T1b_7" (fun _ => none)) }),
  ("T1b_7", { type := "text", next_step := some (.str "T1b_8" (fun _ => none)) }),
  ("T1b_8", { type := "text", next_step := some (.str "T1b_9" (fun _ => none)) }),
  ("T1b_9", { type := "text", next_step := some (.str "T1b_10" (fun _ => none)) }),
  ("T1b_10", { type := "text", next_step := some (.str "T1b_11" (fun _ => none)) }),
  ("T1b_11", { type := "text", next_step := some (.str "T1b_12" (fun _ => none)) }),
  ("T1b_12", { type := "text", next_step := some (.str "T1b_26" (fun _ => none)) }),
  ("T1b_26", { type := "text", next_step := some (.str "T1b_27" (fun _ => none)) })
]

/-- Catalog rows 67–88, in source order. -/
def surveyRows3 : List (String × StepConfig) := [
  ("T1b_27", { type := "text", next_step := some (.str "T1b_13" (fun _ => none)) }),
  ("T1b_13", { type := "text", next_step := some (.str "T1_13_spec" (fun _ => none)) }),
  ("T1_13_spec", { type := "text", next_step := some (.str "T1b_14" (fun _ => none)) }),
  ("T1b_14", { type := "text", next_step := some (.str "T1b_15" (fun _ => none)) }),
  ("T1b_15", { type := "text", next_step := some (.str "T1b_16" (fun _ => none)) }),
  ("T1b_16", { type := "text", next_step := some (.str "T1_16_spec" (fun _ => none)) }),
  ("T1_16_spec", { type := "text", next_step := some (.str "T1b_28" (fun _ => none)) }),
  ("T1b_28", { type := "text", next_step := some (.str "T1b_17" (fun _ => none)) }),
  ("T1b_17", { type := "text", next_step := some (.str "T1b_18" (fun _ => none)) }),
  ("T1b_18", { type := "text", next_step := some (.str "T1b_19" (fun _ => none)) }),
  ("T1b_19", { type := "text", next_step := some (.str "T1b_20" (fun _ => none)) }),
  ("T1b_20", { type := "text", next_step := some (.str "T1b_21" (fun _ => none)) }),
  ("T1b_21", { type := "text", next_step := some (.str "T1b_22" (fun _ => none)) }),
  ("T1b_22", { type := "text", next_step := some (.str "T1b_23" (fun _ => none)) }),
  ("T1b_23", { type := "text", next_step := some (.str "T1b_29" (fun _ => none)) }),
  ("T1b_29", { type := "text", next_step := some (.str "T1b_24" (fun _ => none)) }),
  ("T1b_24", { type := "text", next_step := some (.str "T1_24_spec" (fun _ => none)) }),
  ("T1_24_spec", { type := "text", next_step := some (.str "\x7b 'Show_13' if (any(x in str(Output.get('T1','')) for x in ['OTC Topical','Clobetasol','Triamcinolone','Betamethasone','Halobetasol','Calcipotriene','Taclonex','Fluocinonide','Enstilar','Duobrii','Eucrisa','Topicort','VTAMA® (tapinarof)','ZORYVE (roflumilast)','Other Topical (Please specify)']) and int(Output.get('A2',0)) > 10 and not any(x in str(Output.get('T1','')) for x in ['Otezla®','Methotrexate','Other Oral Systemics (e.g. leflunomide, sulfasalazine, etc.)','Sotyktu','Cosentyx®','Taltz®','Stelara®','Tremfya®','Skyrizi®','Enbrel®','Humira®','Bimzelx® (bimekizumab)','Other Biologic (Please specify)'])) else ('Show_14' if (sum(1 for x in ['Cosentyx®','Taltz®','Stelara®','Tremfya®','Skyrizi®','Enbrel®','Humira®','Bimzelx® (bimekizumab)'] if x in str(Output.get('T1',''))) >= 2) else 'T7') \x7d" semT1_24_spec) }),
  ("Show_13", { type := "show", next_step := some (.dict [("default", "T7")]) }),
  ("Show_14", { type := "show", next_step := some (.dict [("default", "T7")]) }),
  ("T7", { type := "choice", options := ["Yes", "No"], next_step := some (.str "\x7b 'T7a' if Output.get('T7','') == 'Yes' else 'T8' \x7d" semT7) }),
  ("T7a", { type := "text", next_step := some (.str "T7b" (fun _ => none)) })
]

/-- Catalog rows 89–110, in source order. -/
def surveyRows4 : List (String × StepConfig) := [
  ("T7b", { type := "text", next_step := some (.str "T8" (fun _ => none)) }),
  ("T8", { type := "number", min := some (.int 0), next_step_in_range := some "T1z", next_step_out_range := some "T1z" }),
  ("T1z", { type := "choice", options := ["Cream", "Foam", "Both"], next_step := some (.str "\x7b 'T1zf' if Output.get('T1z','') == 'Foam' else 'T2a_1' \x7d" semT1z) }),
  ("T1zf", { type := "choice", options := ["Seborrheic dermatitis", "Psoriasis on the body", "Psoriasis on the scalp", "Psoriasis on both the body and scalp", "Other use (please specify)"], next_step := some (.dict [("default", "T2a_1")]) }),
  ("T2a_1", { type := "choice", options := ["Treatment Cost", "Insurance", "Patient Preference", "Accessibility", "Efficacy on addressing symptoms of the joints", "Efficacy on skin clearance", "Efficacy on DTTA & skin symptoms", "Product safety profile", "Improvement in QoL & Physical Function", "Dosing frequency", "Other (Please Specify)"], next_step := some (.str "T2a_2" (fun _ => none)) }),
  ("T2a_2", { type := "choice", options := ["Treatment Cost", "Insurance", "Patient Preference", "Accessibility", "Efficacy on addressing symptoms of the joints", "Efficacy on skin clearance", "Efficacy on DTTA & skin symptoms", "Product safety profile", "Improvement in QoL & Physical Function", "Dosing frequency", "Other (Please Specify)"], next_step := some (.str "T2a_3" (fun _ => none)) }),
  ("T2a_3", { type := "choice", options := ["Treatment Cost", "Insurance", "Patient Preference", "Accessibility", "Efficacy on addressing symptoms of the joints", "Efficacy on skin clearance", "Efficacy on DTTA & skin symptoms", "Product safety profile", "Improvement in QoL & Physical Function", "Dosing frequency", "Other (Please Specify)"], next_step := some (.str "T2b_1" (fun _ => none)) }),
  ("T2b_1", { type := "multiple_choice", options := ["Treatment Cost", "Insurance", "Patient Preference", "Accessibility", "Efficacy on addressing symptoms of the joints", "Efficacy on skin clearance", "Efficacy on DTTA & skin symptoms", "Product safety profile", "Improvement in QoL & Physical Function", "Dosing frequency", "Other (Please Specify)", "I don’t have additional reasons"], next_step := some (.str "T2b_2" (fun _ => none)) }),
  ("T2b_2", { type := "multiple_choice", options := ["Treatment Cost", "Insurance", "Patient Preference", "Accessibility", "Efficacy on addressing symptoms of the joints", "Efficacy on skin clearance", "Efficacy on DTTA & skin symptoms", "Product safety profile", "Improvement in QoL & Physical Function", "Dosing frequency", "Other (Please Specify)", "I don’t have additional reasons"], next_step := some (.str "T2b_3" (fun _ => none)) }),
  ("T2b_3", { type := "multiple_choice", options := ["Treatment Cost", "Insurance", "Patient Preference", "Accessibility", "Efficacy on addressing symptoms of the joints", "Efficacy on skin clearance", "Efficacy on DTTA & skin symptoms", "Product safety profile", "Improvement in QoL & Physical Function", "Dosing frequency", "Other (Please Specify)", "I don’t have additional reasons"], next_step := some (.str "\x7b 'T2c' if any(x in str(Output.get('T1','')) for x in ['VTAMA® (tapinarof)','ZORYVE (roflumilast)']) else 'T3_A' \x7d" semT2b_3) }),
  ("T2c", { type := "choice", options := ["I want to keep the patient on a topical but need better efficacy than topical steroids can provide", "I want to keep the patient on a topical and this is safer than topical steroid", "I want to delay the potential use of a systemic treatment on this patient", "I think I may avoid systemics altogether with this novel topical on this patient", "I want to try it since it is newer available treatment class", "I had an available sample to give this patient", "Other (please specify)"], next_step := some (.dict [("default", "T3_A")]) }),
  ("T3_A", { type := "multiple_choice", options := ["OTC Topical", "Clobetasol", "Triamcinolone", "Betamethasone", "Halobetasol", "Calcipotriene", "Taclonex", "Fluocinonide", "Enstilar", "Duobrii", "Eucrisa", "Topicort", "VTAMA® (tapinarof)", "ZORYVE (roflumilast)", "Other Topical (Please specify)", "Otezla®", "Methotrexate", "Other Oral Systemics (e.g. leflunomide, sulfasalazine, etc.)", "Sotyktu", "Cosentyx®", "Taltz®", "Stelara®", "Tremfya®", "Skyrizi®", "Enbrel®", "Humira®", "Bimzelx® (bimekizumab)", "Other Biologic (Please specify)"], next_step := some (.str "T3_B" (fun _ => none)) }),
  ("T3_B", { type := "multiple_choice", options := ["OTC Topical", "Clobetasol", "Triamcinolone", "Betamethasone", "Halobetasol", "Calcipotriene", "Taclonex", "Fluocinonide", "Enstilar", "Duobrii", "Eucrisa", "Topicort", "VTAMA® (tapinarof)", "ZORYVE (roflumilast)", "Other Topical (Please specify)", "Otezla®", "Methotrexate", "Other Oral Systemics (e.g. leflunomide, sulfasalazine, etc.)", "Sotyktu", "Cosentyx®", "Taltz®", "Stelara®", "Tremfya®", "Skyrizi®", "Enbrel®", "Humira®", "Bimzelx® (bimekizumab)", "Other Biologic (Please specify)"], next_step := some (.str "T3_C" (fun _ => none)) }),
  ("T3_C", { type := "multiple_choice", options := ["OTC Topical", "Clobetasol", "Triamcinolone", "Betamethasone", "Halobetasol", "Calcipotriene", "Taclonex", "Fluocinonide", "Enstilar", "Duobrii", "Eucrisa", "Topicort", "VTAMA® (tapinarof)", "ZORYVE (roflumilast)", "Other Topical (Please specify)", "Otezla®", "Methotrexate", "Other Oral Systemics (e.g. leflunomide, sulfasalazine, etc.)", "Sotyktu", "Cosentyx®", "Taltz®", "Stelara®", "Tremfya®", "Skyrizi®", "Enbrel®", "Humira®", "Bimzelx® (bimekizumab)", "Other Biologic (Please specify)"], next_step := some (.str "T4_A" (fun _ => none)) }),
  ("T4_A", { type := "multiple_choice", options := ["Patient Influence", "MD Habit", "Clinical Efficacy", "Safety & Tolerability", "Insurance", "Decreased dosing frequency", "Other (Please specify)"], next_step := some (.str "T4_B" (fun _ => none)) }),
  ("T4_B", { type := "multiple_choice", options := ["Patient Influence", "MD Habit", "Clinical Efficacy", "Safety & Tolerability", "Insurance", "Decreased dosing frequency", "Other (Please specify)"], next_step := some (.str "T4_C" (fun _ => none)) }),
  ("T4_C", { type := "multiple_choice", options := ["Patient Influence", "MD Habit", "Clinical Efficacy", "Safety & Tolerability", "Insurance", "Decreased dosing frequency", "Other (Please specify)"], next_step := some (.str "T9" (fun _ => none)) }),
  ("T9", { type := "multiple_choice", options := ["Affordability / out-of-pocket costs", "Insurance coverage", "Patient has more concerning comorbidities", "Concerns about patient compliance", "Patient refusal", "Patient history with potential side effects", "Patient preference for non-systemic treatment", "Don’t expect patient’s psoriasis to progress / worsen", "Patient is contraindicated", "Patient is needle averse", "Don’t want to have to conduct initial / ongoing labs", "Current medication was effective enough", "Other (Please specify)"], next_step := some (.str "\x7b 'T9A' if 'Patient refusal' in str(Output.get('T9','')) else 'A3BSA' \x7d" semT9) }),
  ("T9A", { type := "multiple_choice", options := ["Concern about affordability / out of pocket costs", "Concern it wouldn’t be covered by insurance", "Patient decided current medication was effective enough", "Patient refusal due to more concerning comorbidities", "Patient preferred less aggressive therapy", "Patient concern with potential side effects", "Patient preference for specific ROA", "Patient did not understand the long-term, systemic implications of having uncontrolled PsO", "Patient is needle averse", "Patient did not want to have to do initial / on-going labs", "Inability to start on treatment today / immediately", "Other (Please specify)"], next_step := some (.dict [("default", "A3BSA")]) }),
  ("A3BSA", { type := "choice", options := ["Very unlikely", "Unlikely", "Somewhat unlikely", "Somewhat likely", "Likely", "Very likely"], next_step := some (.str "\x7b 'A5BSA' if Output.get('A3BSA','') in ['Somewhat likely','Likely','Very likely'] else 'A10' \x7d" semA3BSA) }),
  ("A5BSA", { type := "multiple_choice", options := ["Patient has insufficient skin clearance on topicals alone", "Patient has a difficult to treat psoriasis area (e.g., scalp, genital, palms)", "Patient symptoms are not controlled (e.g., itch, skin tightness)", "Patient is experiencing frequent flares", "Patient’s plaque presentation (e.g., thick plaques, thick scales)", "I expect the patient’s psoriasis to progress / worsen", "Current PsO presentation indicates signs of PsA (e.g., nail PsO)", "Patient is growing tired of topicals", "Patient’s self-esteem and / or quality of life is becoming impacted", "Future insurance changes may approve systemic treatment", "Patient has family history of more severe PsO and / or active PsA", "Patient has begun asking about systemic treatment", "PsO is a chronic disease and may need a systemic in the long-term", "Other (Please specify)"], next_step := some (.dict [("default", "A4BSA")]) }),
  ("A4BSA", { type := "number_or_unknown", options := ["Don’t know"], min := some (.int 0), max := some (.int 24), next_step := some (.dict [("default", "A6BSA")]), next_step_in_range := some "A6BSA" })
]

/-- Catalog rows 111–132, in source order. -/
def surveyRows5 : List (String × StepConfig) := [
  ("A6BSA", { type := "choice", options := ["Otezla®", "Methotrexate", "Other Oral Systemics (e.g. leflunomide, sulfasalazine, etc.)", "Sotyktu", "Cosentyx®", "Taltz®", "Stelara®", "Tremfya®", "Skyrizi®", "Enbrel®", "Humira®", "Bimzelx® (bimekizumab)", "Other Biologic (Please specify)"], next_step := some (.dict [("default", "A10")]) }),
  ("A10", { type := "choice", options := ["Yes", "No"], next_step := some (.str "\x7b 'A10a' if Output.get('A10','') == 'Yes' else 'A8' \x7d" semA10) }),
  ("A10a", { type := "choice", options := ["Otezla®", "Skyrizi®", "Humira®", "VTAMA® (tapinarof)", "ZORYVE (roflumilast)", "Sotyktu", "Taltz®", "Stelara®", "Tremfya®", "Cosentyx®", "Bimzelx® (bimekizumab)"], next_step := some (.dict [("default", "A10B")]) }),
  ("A10B", { type := "text", next_step := some (.dict [("default", "A8")]) }),
  ("A8", { type := "multiple_choice", options := ["Affordability", "Route of administration", "Dosing frequency", "Speed of onset", "Tolerability/side effects", "Out-of-pocket cost", "Ease of patient access", "Reduction in the amount of medications/treatments patient has to take overall", "Product that patient trusts", "Side effects", "Long-lasting effect", "Doctor recommendation", "Doesn’t need monitoring by a doctor", "No need for Lab work", "Other (please specify)"], next_step := some (.dict [("default", "A11")]) }),
  ("A11", { type := "choice", options := ["Patient prefers oral treatment over self-injection", "Patient does not express a specific preference", "Patient prefers self-injection over oral treatment"], next_step := some (.dict [("default", "T6")]) }),
  ("T6", { type := "multiple_choice", options := ["OTC Topical", "Clobetasol", "Triamcinolone", "Betamethasone", "Halobetasol", "Calcipotriene", "Taclonex", "Fluocinonide", "Enstilar", "Duobrii", "Eucrisa", "Topicort", "VTAMA® (tapinarof)", "ZORYVE (roflumilast)", "Other Topical (Please specify)", "Otezla®", "Methotrexate", "Other Oral Systemics (e.g. leflunomide, sulfasalazine, etc.)", "Sotyktu", "Cosentyx®", "Taltz®", "Stelara®", "Tremfya®", "Skyrizi®", "Enbrel®", "Humira®", "Bimzelx® (bimekizumab)", "Other Biologic (Please specify)", "Phototherapy", "None"], next_step := some (.str "T6_b_1" (fun _ => none)) }),
  ("T6_b_1", { type := "text", next_step := some (.str "T6_c_1" (fun _ => none)) }),
  ("T6_c_1", { type := "text", next_step := some (.str "T6_b_2" (fun _ => none)) }),
  ("T6_b_2", { type := "text", next_step := some (.str "T6_c_2" (fun _ => none)) }),
  ("T6_c_2", { type := "text", next_step := some (.str "T6_b_3" (fun _ => none)) }),
  ("T6_b_3", { type := "text", next_step := some (.str "T6_c_3" (fun _ => none)) }),
  ("T6_c_3", { type := "text", next_step := some (.str "T6_b_4" (fun _ => none)) }),
  ("T6_b_4", { type := "text", next_step := some (.str "T6_c_4" (fun _ => none)) }),
  ("T6_c_4", { type := "text", next_step := some (.str "T6_b_5" (fun _ => none)) }),
  ("T6_b_5", { type := "text", next_step := some (.str "T6_c_5" (fun _ => none)) }),
  ("T6_c_5", { type := "text", next_step := some (.str "T6_b_6" (fun _ => none)) }),
  ("T6_b_6", { type := "text", next_step := some (.str "T6_c_6" (fun _ => none)) }),
  ("T6_c_6", { type := "text", next_step := some (.str "T6_b_7" (fun _ => none)) }),
  ("T6_b_7", { type := "text", next_step := some (.str "T6_c_7" (fun _ => none)) }),
  ("T6_c_7", { type := "text", next_step := some (.str "T6_b_8" (fun _ => none)) }),
  ("T6_b_8", { type := "text", next_step := some (.str "T6_c_8" (fun _ => none)) })
]

/-- Catalog rows 133–154, in source order. -/
def surveyRows6 : List (String × StepConfig) := [
  ("T6_c_8", { type := "text", next_step := some (.str "T6_b_9" (fun _ => none)) }),
  ("T6_b_9", { type := "text", next_step := some (.str "T6_c_9" (fun _ => none)) }),
  ("T6_c_9", { type := "text", next_step := some (.str "T6_b_10" (fun _ => none)) }),
  ("T6_b_10", { type := "text", next_step := some (.str "T6_c_10" (fun _ => none)) }),
  ("T6_c_10", { type := "text", next_step := some (.str "T6_b_11" (fun _ => none)) }),
  ("T6_b_11", { type := "text", next_step := some (.str "T6_c_11" (fun _ => none)) }),
  ("T6_c_11", { type := "text", next_step := some (.str "T6_b_12" (fun _ => none)) }),
  ("T6_b_12", { type := "text", next_step := some (.str "T6_c_12" (fun _ => none)) }),
  ("T6_c_12", { type := "text", next_step := some (.str "T6_b_26" (fun _ => none)) }),
  ("T6_b_26", { type := "text", next_step := some (.str "T6_c_26" (fun _ => none)) }),
  ("T6_c_26", { type := "text", next_step := some (.str "T6_b_27" (fun _ => none)) }),
  ("T6_b_27", { type := "text", next_step := some (.str "T6_c_27" (fun _ => none)) }),
  ("T6_c_27", { type := "text", next_step := some (.str "T6_b_13" (fun _ => none)) }),
  ("T6_b_13", { type := "text", next_step := some (.str "T6_c_13" (fun _ => none)) }),
  ("T6_c_13", { type := "text", next_step := some (.str "T6_b_14" (fun _ => none)) }),
  ("T6_b_14", { type := "text", next_step := some (.str "T6_c_14" (fun _ => none)) }),
  ("T6_c_14", { type := "text", next_step := some (.str "T6_b_15" (fun _ => none)) }),
  ("T6_b_15", { type := "text", next_step := some (.str "T6_c_15" (fun _ => none)) }),
  ("T6_c_15", { type := "text", next_step := some (.str "T6_b_16" (fun _ => none)) }),
  ("T6_b_16", { type := "text", next_step := some (.str "T6_c_16" (fun _ => none)) }),
  ("T6_c_16", { type := "text", next_step := some (.str "T6_b_28" (fun _ => none)) }),
  ("T6_b_28", { type := "text", next_step := some (.str "T6_c_28" (fun _ => none)) })
]

/-- Catalog rows 155–176, in source order. -/
def surveyRows7 : List (String × StepConfig) := [
  ("T6_c_28", { type := "text", next_step := some (.str "T6_b_17" (fun _ => none)) }),
  ("T6_b_17", { type := "text", next_step := some (.str "T6_c_17" (fun _ => none)) }),
  ("T6_c_17", { type := "text", next_step := some (.str "T6_b_18" (fun _ => none)) }),
  ("T6_b_18", { type := "text", next_step := some (.str "T6_c_18" (fun _ => none)) }),
  ("T6_c_18", { type := "text", next_step := some (.str "T6_b_19" (fun _ => none)) }),
  ("T6_b_19", { type := "text", next_step := some (.str "T6_c_19" (fun _ => none)) }),
  ("T6_c_19", { type := "text", next_step := some (.str "T6_b_20" (fun _ => none)) }),
  ("T6_b_20", { type := "text", next_step := some (.str "T6_c_20" (fun _ => none)) }),
  ("T6_c_20", { type := "text", next_step := some (.str "T6_b_21" (fun _ => none)) }),
  ("T6_b_21", { type := "text", next_step := some (.str "T6_c_21" (fun _ => none)) }),
  ("T6_c_21", { type := "text", next_step := some (.str "T6_b_22" (fun _ => none)) }),
  ("T6_b_22", { type := "text", next_step := some (.str "T6_c_22" (fun _ => none)) }),
  ("T6_c_22", { type := "text", next_step := some (.str "T6_b_23" (fun _ => none)) }),
  ("T6_b_23", { type := "text", next_step := some (.str "T6_c_23" (fun _ => none)) }),
  ("T6_c_23", { type := "text", next_step := some (.str "T6_b_29" (fun _ => none)) }),
  ("T6_b_29", { type := "text", next_step := some (.str "T6_c_29" (fun _ => none)) }),
  ("T6_c_29", { type := "text", next_step := some (.str "T6_b_24" (fun _ => none)) }),
  ("T6_b_24", { type := "text", next_step := some (.str "T6_c_24" (fun _ => none)) }),
  ("T6_c_24", { type := "text", next_step := some (.str "T6_b_25" (fun _ => none)) }),
  ("T6_b_25", { type := "text", next_step := some (.str "T6_c_25" (fun _ => none)) }),
  ("T6_c_25", { type := "text", next_step := some (.str "T6_none_check" (fun _ => none)) }),
  ("T6_none_check", { type := "show", next_step := some (.dict [("default", "T6")]) })
]

/-- Catalog rows 177–177, in source order. -/
def surveyRows8 : List (String × StepConfig) := [
  ("T6none", { type := "text", next_step := some (.dict [("default", "END")]) })
]

/-- The full `SURVEY_DATA` step catalog, in source order. -/
def SURVEY_DATA : List (String × StepConfig) :=
  surveyRows0 ++ surveyRows1 ++ surveyRows2 ++ surveyRows3 ++ surveyRows4 ++ surveyRows5 ++ surveyRows6 ++ surveyRows7 ++ surveyRows8

/-- Step lookup (`SURVEY_DATA[s]` when `s in SURVEY_DATA`). -/
def lookupStep (s : String) : Option StepConfig :=
  (SURVEY_DATA.find? (fun p => p.1 == s)).map (fun p => p.2)

/-- `s in SURVEY_DATA` — key membership in the catalog. -/
def isStepKey (s : String) : Bool :=
  SURVEY_DATA.any (fun p => p.1 == s)

/-- The cleaned expression of `evaluate_logic`:
`expression.replace('\x7b','').replace('\x7d','').strip()`. -/
def cleanExpr (raw : String) : String :=
  pyStrip (String.mk ((raw.data.filter (fun c => c != '\x7b')).filter (fun c => c != '\x7d')))

/-- `evaluate_logic` of `survey_data.py`: an empty expression is returned
as-is; otherwise the cleaned expression is evaluated (via the semantics
carried with it; `none` models a raised exception caught by the bare
`except`), and on failure a cleaned expression that names a catalog step or
a terminal is treated as a literal jump target, while anything else yields
the unresolved sentinel `none` (Python `None`). -/
def evaluate_logic (raw : String) (sem : AnswerSet → Option PyVal) (answers : AnswerSet) : Option PyVal :=
  if raw == "" then some (.str raw)
  else
    let clean := cleanExpr raw
    if clean == "" then none
    else
      match sem answers with
      | some v => some v
      | none =>
        if isStepKey clean || clean == "TERMINATE" || clean == "END" then some (.str clean)
        else none

/-- The heuristic of `get_next_step` step 1: the `next_step` string looks
like a logic expression. -/
def looksLikeExpr (raw : String) : Bool :=
  inStrB "Output" raw || inStrB "any(" raw || inStrB "if" raw

/-- Resolution of a `min`/`max` bound inside `get_next_step`
(`config.get(..., default)`, evaluating string bounds with `evaluate_logic`,
then `int(...)`; `none` models the exception swallowed by the bare
`except`, including `int(None)` when evaluation was unresolved). -/
def gBound (b : Option Bound) (dflt : Int) (answers : AnswerSet) : Option Int :=
  match b with
  | none => some dflt
  | some (.int n) => some n
  | some (.expr raw sem) => (evaluate_logic raw sem answers).bind pyIntOf

/-- The range comparison of `get_next_step`'s numeric `try` block: `some s`
when the block returns a step, `none` when control falls through (a missing
range key on the taken side, or a swallowed exception). -/
def numericNext (config : StepConfig) (answer : PyVal) (temp : AnswerSet) : Option String :=
  match pyIntOf answer, gBound config.min (-999999) temp, gBound config.max 999999 temp with
  | some v, some mn, some mx =>
    if mn ≤ v ∧ v ≤ mx then config.next_step_in_range else config.next_step_out_range
  | _, _, _ => none

/-- Step 2 of `get_next_step` (numeric types): a non-digit string answer is
looked up in a dict rule (special tokens), otherwise the range comparison
runs; `some s` when step 2 returns, `none` when control falls to steps 3–5. -/
def numericBranch (config : StepConfig) (answer : PyVal) (temp : AnswerSet) : Option String :=
  if config.type == "number" || config.type == "number_or_unknown" then
    match answer, config.next_step with
    | .str s, some (.dict pairs) =>
      if !(pyIsDigit s) then
        some ((dictLookup pairs s).getD ((dictLookup pairs "default").getD "TERMINATE"))
      else numericNext config answer temp
    | _, _ => numericNext config answer temp
  else none

/-- Step 4 of `get_next_step` (value-keyed dict): `none` models the
`TypeError` raised by testing an unhashable list for dict membership
(`answer in logic`). -/
def dictNext (pairs : List (String × String)) (answer : PyVal) : Option String :=
  match answer with
  | .list _ => none
  | .str s => some ((dictLookup pairs s).getD ((dictLookup pairs "default").getD "TERMINATE"))
  | _ => some ((dictLookup pairs "default").getD "TERMINATE")

/-- `get_next_step` of `survey_data.py`: the next step id (or "END" /
"TERMINATE"); `none` models an uncaught exception escaping the function. -/
def get_next_step (current_step : String) (answer : PyVal) (answers : AnswerSet) : Option String :=
  match lookupStep current_step with
  | none => some "END"
  | some config =>
    let temp := setA answers current_step answer
    let step1 : Option String :=
      match config.next_step with
      | some (.str raw sem) =>
        if looksLikeExpr raw then
          match evaluate_logic raw sem temp with
          | some (.str r) => if isStepKey r || r == "END" || r == "TERMINATE" then some r else none
          | _ => none
        else none
      | _ => none
    match step1 with
    | some r => some r
    | none =>
      match numericBranch config answer temp with
      | some r => some r
      | none =>
        match config.next_step with
        | some (.str raw _) =>
          if isStepKey raw || raw == "END" || raw == "TERMINATE" then some raw
          else some "TERMINATE"
        | some (.dict pairs) => dictNext pairs answer
        | none => some "TERMINATE"

/-- Resolution of a `min`/`max` bound inside `validate_answer`
(`int(evaluate_logic(...) or d)`); `none` models the exception swallowed by
the surrounding `except`. -/
def vBound (b : Option Bound) (dflt : Int) (answers : AnswerSet) : Option Int :=
  match b with
  | none => some dflt
  | some (.int n) => some n
  | some (.expr raw sem) =>
    pyIntOf (match evaluate_logic raw sem answers with
             | some v => if pyTruthy v then v else .int dflt
             | none => .int dflt)

/-- `validate_answer` of `survey_data.py`. -/
def validate_answer (step : String) (answer : PyVal) (answers : AnswerSet) : Bool × String :=
  match lookupStep step with
  | none => (false, "Invalid step")
  | some qd =>
    if qd.type == "multiple_choice" then
      if !(pyTruthy answer) then (false, "Please select at least one option.")
      else if pyInList answer qd.options then (true, "Valid")
      else if (match answer with
               | .list l => l.all (fun x => qd.options.contains x)
               | _ => false) then (true, "Valid")
      else (true, "Valid")
    else if qd.type == "choice" then
      if !(pyInList answer qd.options) then
        (false, "Please select one of the provided options: "
          ++ String.intercalate ", " (qd.options.take 3) ++ "...")
      else (true, "Valid")
    else if qd.type == "number" || qd.type == "number_or_unknown" then
      if pyInList answer qd.options then (true, "Valid")
      else
        match pyIntOf answer, vBound qd.min 0 answers, vBound qd.max 10000 answers with
        | some num, some mn, some mx =>
          if mn ≤ num ∧ num ≤ mx then (true, "Valid")
          else (false, "Please enter a number between " ++ toString mn ++ " and " ++ toString mx)
        | _, _, _ => (false, "Please enter a valid number")
    else if qd.type == "composite_number" then
      if !(pyTruthy answer) then (false, "Please provide values.") else (true, "Valid")
    else if qd.type == "text" then
      if !(pyTruthy answer) || pyStrip (pyStrOfVal answer) == "" then (false, "Please provide a response.")
      else (true, "Valid")
    else if qd.type == "show" then (true, "Valid")
    else (true, "Valid")

/-- `match_voice_to_option` of `survey_data.py`. -/
def match_voice_to_option (answer : String) (options : List String) : Option String :=
  if answer == "" || options.isEmpty then none
  else
    let a := pyLower (pyStrip answer)
    if a == "" then none
    else
      match options.find? (fun opt => a == pyLower opt) with
      | some opt => some opt
      | none =>
      match options.find? (fun opt => inStrB a (pyLower opt)) with
      | some opt => some opt
      | none =>
      match options.find? (fun opt => inStrB (pyLower opt) a) with
      | some opt => some opt
      | none =>
        let aWords := (splitWs a).dedup
        options.find? (fun opt =>
          let optWords := (splitWs (pyLower opt)).dedup
          (!optWords.isEmpty && optWords.all (fun w => aWords.contains w)) ||
          (!aWords.isEmpty && aWords.all (fun w => optWords.contains w) &&
            decide (optWords.length ≤ 2 * (aWords.filter (fun w => optWords.contains w)).length)))

/-- The first option-matching pass of `save_answer` for multiple-choice
answers: options mentioned verbatim, or at least half of whose significant
words (length > 3) occur, in the lower-cased response. -/
def multiMatchedOptions (options : List String) (answer : String) : List String :=
  let aLow := pyLower answer
  options.filter (fun opt =>
    let optLow := pyLower opt
    let optWords := (splitWs optLow).filter (fun w => 3 < w.length)
    if inStrB optLow aLow then true
    else if !optWords.isEmpty && optWords.any (fun w => inStrB w aLow) then
      decide (optWords.length ≤ 2 * (optWords.countP (fun w => inStrB w aLow)))
    else false)

/-- The fallback pass of `save_answer` for multiple-choice answers: collect
options individually matched by `match_voice_to_option`. -/
def multiFallback (options : List String) (answer : String) : List String :=
  options.foldl (fun acc opt =>
    if (match_voice_to_option answer [opt]).isSome && !acc.contains opt then acc ++ [opt]
    else acc) []

/-- The answer-extraction phase of `save_answer`: normalize a raw
conversational response against the current step's type and options. -/
def extractAnswer (qtype : String) (options : List String) (answer : String) : PyVal :=
  if pyStrip answer != "" then
    if qtype == "multiple_choice" && !options.isEmpty then
      let matched := multiMatchedOptions options answer
      let matched := if matched.isEmpty then multiFallback options answer else matched
      match matched with
      | [] =>
        match match_voice_to_option answer options with
        | some m => .list [m]
        | none => .str answer
      | [x] => .str x
      | xs => .list xs
    else if qtype == "choice" && !options.isEmpty then
      match match_voice_to_option answer options with
      | some m => .str m
      | none =>
        let aLow := pyLower answer
        match options.find? (fun opt =>
            (((splitWs opt).filter (fun w => 3 < w.length)).map pyLower).any
              (fun w => inStrB w aLow)) with
        | some opt => .str opt
        | none => .str answer
    else if qtype == "number" || qtype == "number_or_unknown" || qtype == "composite_number" then
      match firstDigitRun answer with
      | some d => .str d
      | none =>
        if inStrB "don't know" (pyLower answer) || inStrB "unknown" (pyLower answer)
           || inStrB "not sure" (pyLower answer) then
          if qtype == "number_or_unknown" then .str "Don't know" else .str answer
        else .str answer
    else .str answer
  else .str answer

/-- The per-session state held in `tool_context.state`
(`current_step`, `answers`, `step_history`). -/
structure SessionState where
  current_step : String
  answers : AnswerSet
  step_history : List String
deriving DecidableEq, Repr

/-- The result dict of `save_answer`; keys the taken code path does not set
are `none`.  The display-only `next_question` entry is omitted. -/
structure SaveResult where
  status : String
  message : Option String := none
  current_step : Option String := none
  next_step : Option String := none
  predicted_next_step : Option String := none
  will_terminate : Option Bool := none
  termination_reason : Option String := none
  warning_message : Option String := none
  extracted_answer : Option PyVal := none
  reason : Option String := none
  dry_run : Option Bool := none
  total_answers : Option Nat := none
deriving DecidableEq, Repr

/-- `save_answer` of `agent.py`: extraction, validation, then either the
dry-run prediction or the committing transition.  The first component is the
returned result dict — `none` models an exception escaping the call (a list
answer reaching a dict rule inside `get_next_step`); the second component is
the session state as left by the call. -/
def save_answer (st : SessionState) (answer : String) (dry_run : Bool) : Option SaveResult × SessionState :=
  let cs := st.current_step
  let answers := st.answers
  let options := match lookupStep cs with | some c => c.options | none => []
  let qtype := match lookupStep cs with | some c => c.type | none => "choice"
  let ext := extractAnswer qtype options answer
  let v := validate_answer cs ext answers
  if !v.1 then
    (some { status := "invalid", message := some v.2, current_step := some cs,
            extracted_answer := if ext ≠ .str answer then some ext else none }, st)
  else if dry_run then
    let temp := setA answers cs ext
    match get_next_step cs ext temp with
    | none => (none, st)
    | some nxt =>
      (some { status := "dry_run", dry_run := some true, current_step := some cs,
              predicted_next_step := some nxt, extracted_answer := some ext,
              will_terminate := some (nxt == "TERMINATE"),
              termination_reason :=
                if nxt == "TERMINATE" then some ("Disqualified at " ++ cs) else none,
              warning_message :=
                if nxt == "TERMINATE" then some "This answer will disqualify the participant."
                else none }, st)
  else
    let answers1 := setA answers cs ext
    let hist1 := st.step_history ++ [cs]
    match get_next_step cs ext answers1 with
    | none => (none, { current_step := cs, answers := answers1, step_history := hist1 })
    | some nxt =>
      let st2 : SessionState := { current_step := nxt, answers := answers1, step_history := hist1 }
      if nxt == "TERMINATE" then
        (some { status := "terminated",
                message := some "Based on your response, you do not qualify for this survey. Thank you for your time.",
                reason := some ("Disqualified at " ++ cs) }, st2)
      else if nxt == "END" then
        (some { status := "completed",
                message := some "Survey completed successfully! Thank you for your participation.",
                total_answers := some answers1.length }, st2)
      else
        (some { status := "success", message := some "Got it, answer saved.",
                current_step := some cs, next_step := some nxt,
                extracted_answer := if ext ≠ .str answer then some ext else none }, st2)

/-- The result dict of `go_back` / `navigate_to_question`; the display-only
`next_question` / `question` entries are omitted. -/
structure NavResult where
  status : String
  message : Option String := none
  current_step : Option String := none
  has_answer : Option Bool := none
deriving DecidableEq, Repr

/-- `go_back` of `agent.py`: error on empty history, else pop the last
visited step and move there; answers are deliberately kept. -/
def go_back (st : SessionState) : NavResult × SessionState :=
  if st.step_history.isEmpty then
    ({ status := "error",
       message := some "We're already at the first question. There's nothing to go back to.",
       current_step := some st.current_step }, st)
  else
    let prev := (st.step_history.getLast?).getD ""
    ({ status := "success", message := some "Sure, we're back at the previous question.",
       current_step := some prev },
     { current_step := prev, answers := st.answers, step_history := st.step_history.dropLast })

/-- The shared tail of `navigate_to_question`: truncate the history to just
before the target's first occurrence when it is already in the history, then
move to the target. -/
def navFinish (st : SessionState) (target : String) : NavResult × SessionState :=
  let hist := if st.step_history.contains target
              then st.step_history.take (st.step_history.indexOf target)
              else st.step_history
  ({ status := "success", message := some ("Navigated to " ++ target ++ "."),
     current_step := some target,
     has_answer := some (getA st.answers target).isSome },
   { current_step := target, answers := st.answers, step_history := hist })

/-- The case normalization `navigate_to_question` applies to a requested
step id (`step_id.upper() if not step_id.startswith("S") else step_id`). -/
def normStepId (sid : String) : String :=
  if !(isPre "S".data sid.data) then pyUpper sid else sid

/-- `navigate_to_question` of `agent.py`: navigate by step id (normalized,
then checked against the catalog and terminals) or by 1-based position in
the history; unknown targets and out-of-range positions produce an error
result and leave the state unchanged. -/
def navigate_to_question (st : SessionState) (step_id : Option String) (question_number : Option Int) : NavResult × SessionState :=
  let cs := st.current_step
  if (match step_id with | some s => s != "" | none => false) then
    let sid := step_id.getD ""
    let target := normStepId sid
    if !(isStepKey target) && target ≠ "END" && target ≠ "TERMINATE" then
      ({ status := "error",
         message := some ("Step " ++ target ++ " doesn't exist in the survey."),
         current_step := some cs }, st)
    else navFinish st target
  else if (match question_number with | some n => n != 0 | none => false) then
    let qn := question_number.getD 0
    if qn < 1 ∨ (st.step_history.length : Int) < qn then
      ({ status := "error",
         message := some ("Question number " ++ toString qn ++ " is out of range. You've answered "
           ++ toString st.step_history.length ++ " questions so far."),
         current_step := some cs }, st)
    else navFinish st (st.step_history.getD (qn - 1).toNat "")
  else
    ({ status := "error",
       message := some "Please provide either step_id (like 'S5') or question_number (like 3).",
       current_step := some cs }, st)

/-- A heap of answer dicts keyed by reference id, used to state that
`get_next_step` never writes through its caller's dict reference. -/
abbrev DictHeap := List (Nat × AnswerSet)

/-- Heap read. -/
def heapGet (h : DictHeap) (r : Nat) : Option AnswerSet :=
  (h.find? (fun p => p.1 == r)).map (fun p => p.2)

/-- A reference id unused by the heap. -/
def freshRef (h : DictHeap) : Nat := (h.map (fun p => p.1)).foldr max 0 + 1

/-- `get_next_step` with the identity of its dict argument made explicit:
the caller's answers live at reference `r`; `temp_answers = answers.copy()`
allocates a fresh reference holding a copy, the tentative write
`temp_answers[current_step] = answer` goes to that copy, and every later
read in the body is from the copy.  Returns the result with the final heap. -/
def get_next_step_refs (current_step : String) (answer : PyVal) (h : DictHeap) (r : Nat) : Option String × DictHeap :=
  let base := (heapGet h r).getD []
  let h1 := (freshRef h, setA base current_step answer) :: h
  (get_next_step current_step answer base, h1)

theorem getA_setA (a : AnswerSet) (k : String) (v : PyVal) : getA (setA a k v) k = some v := by
  induction a with
  | nil => simp [setA, getA, List.find?]
  | cons p t ih =>
    by_cases h : p.1 == k
    · simp [setA, getA, List.find?, h]
    · simp only [setA, h]
      simpa [getA, List.find?, h] using ih

theorem isPre_append_self (n rest : List Char) : isPre n (n ++ rest) = true := by
  induction n with
  | nil => rfl
  | cons c t ih => simp [isPre, ih]

theorem isSeg_nil_needle (h : List Char) : isSeg [] h = true := by
  cases h with
  | nil => rfl
  | cons c rest => simp [isSeg, isPre]

theorem isSeg_append (pre n post : List Char) : isSeg n (pre ++ n ++ post) = true := by
  induction pre with
  | nil =>
    cases n with
    | nil => simpa using isSeg_nil_needle post
    | cons c t =>
      have h1 : isPre (c :: t) ((c :: t) ++ post) = true := isPre_append_self (c :: t) post
      simp only [List.nil_append, isSeg, Bool.or_eq_true]
      exact Or.inl h1
  | cons c p ih =>
    simp only [List.cons_append, isSeg, Bool.or_eq_true]
    exact Or.inr (by simpa [List.append_assoc] using ih)

theorem mem_midChars (e : String) (L : List String) (he : e ∈ L) :
    ∃ pre post, midChars L = pre ++ pyReprChars e ++ post := by
  induction L with
  | nil => cases he
  | cons x t ih =>
    rcases List.mem_cons.mp he with rfl | hmem
    · cases t with
      | nil => exact ⟨[], [], by simp [midChars]⟩
      | cons y u => exact ⟨[], ',' :: ' ' :: midChars (y :: u), by simp [midChars]⟩
    · cases t with
      | nil => cases hmem
      | cons y u =>
        obtain ⟨pre, post, hmid⟩ := ih hmem
        exact ⟨pyReprChars x ++ ',' :: ' ' :: pre, post, by simp [midChars, hmid]⟩

theorem quoteFree_repr (e : String) (h : e.data.contains '\'' = false) :
    pyReprChars e = '\'' :: e.data ++ ['\''] := by
  have h' : ¬ ('\'' ∈ e.data) := by simpa using h
  simp [pyReprChars, h']

theorem mem_inStr_pyList (e : String) (L : List String)
    (he : e ∈ L) (hq : e.data.contains '\'' = false) :
    inStrB e (pyStrOfVal (.list L)) = true := by
  obtain ⟨pre, post, hmid⟩ := mem_midChars e L he
  show isSeg e.data ('[' :: midChars L ++ [']']) = true
  rw [hmid, quoteFree_repr e hq]
  have harr : '[' :: (pre ++ ('\'' :: e.data ++ ['\'']) ++ post) ++ [']'] =
      ('[' :: pre ++ ['\'']) ++ e.data ++ ('\'' :: post ++ [']']) := by simp
  rw [harr]
  exact isSeg_append _ _ _

theorem sublist_pair {α : Type} {L : List α} {a b : α} (h : L.Sublist [a, b]) :
    L = [] ∨ L = [a] ∨ L = [b] ∨ L = [a, b] := by
  cases h with
  | cons _ h1 =>
    cases h1 with
    | cons _ h2 => left; exact List.sublist_nil.mp h2
    | cons₂ _ h2 => right; right; left; rw [List.sublist_nil.mp h2]
  | cons₂ _ h1 =>
    cases h1 with
    | cons _ h2 => right; left; rw [List.sublist_nil.mp h2]
    | cons₂ _ h2 => right; right; right; rw [List.sublist_nil.mp h2]

theorem mem_le_foldr_max (a : Nat) (l : List Nat) (h : a ∈ l) :
    a ≤ l.foldr max 0 := by
  induction l with
  | nil => cases h
  | cons b t ih =>
    rcases List.mem_cons.mp h with rfl | h
    · exact le_max_left _ _
    · exact le_trans (ih h) (le_max_right _ _)

/-- The bound is absent or a literal number (not a deferred expression). -/
def isLitB : Option Bound → Bool
  | some (.expr _ _) => false
  | _ => true

/-- A literal bound's value, with `get_next_step`'s defaults. -/
def litBound (b : Option Bound) (dflt : Int) : Int :=
  match b with
  | some (.int n) => n
  | _ => dflt

set_option maxRecDepth 4000 in
theorem range_pair_shape :
    ∀ p ∈ SURVEY_DATA, p.2.next_step_in_range.isSome = true →
      p.2.next_step_out_range.isSome = true →
      p.2.next_step.isNone = true ∧ p.2.type = "number" ∧
      isLitB p.2.min = true ∧ isLitB p.2.max = true := by decide

theorem range_pair_step (cs : String) (cfg : StepConfig) (a b : String) (n : Int)
    (answers : AnswerSet)
    (hs : lookupStep cs = some cfg)
    (hns : cfg.next_step = none)
    (ht : cfg.type = "number")
    (hmnl : isLitB cfg.min = true) (hmxl : isLitB cfg.max = true)
    (ha : cfg.next_step_in_range = some a) (hb : cfg.next_step_out_range = some b) :
    get_next_step cs (.int n) answers =
      some (if litBound cfg.min (-999999) ≤ n ∧ n ≤ litBound cfg.max 999999 then a else b) := by
  unfold get_next_step
  rw [hs]
  simp only [hns]
  unfold numericBranch
  rw [ht]
  simp only [hns]
  unfold numericNext
  have hmn : gBound cfg.min (-999999) (setA answers cs (.int n)) =
      some (litBound cfg.min (-999999)) := by
    match hcm : cfg.min with
    | none => simp [gBound, litBound]
    | some (.int m) => simp [gBound, litBound]
    | some (.expr raw sem) => rw [hcm] at hmnl; cases hmnl
  have hmx : gBound cfg.max 999999 (setA answers cs (.int n)) =
      some (litBound cfg.max 999999) := by
    match hcm : cfg.max with
    | none => simp [gBound, litBound]
    | some (.int m) => simp [gBound, litBound]
    | some (.expr raw sem) => rw [hcm] at hmxl; cases hmxl
  rw [hmn, hmx]
  simp only [pyIntOf]
  by_cases hr : litBound cfg.min (-999999) ≤ n ∧ n ≤ litBound cfg.max 999999
  · simp [hr, ha]
  · simp [hr, hb]

theorem step1_expr_fires (cs : String) (cfg : StepConfig) (raw : String)
    (sem : AnswerSet → Option PyVal) (ans : PyVal) (answers : AnswerSet) (s : String)
    (hs : lookupStep cs = some cfg)
    (hn : cfg.next_step = some (.str raw sem))
    (hheur : looksLikeExpr raw = true)
    (hraw : (raw == "") = false)
    (hclean : (cleanExpr raw == "") = false)
    (hsem : sem (setA answers cs ans) = some (.str s))
    (hkey : (isStepKey s || s == "END" || s == "TERMINATE") = true) :
    get_next_step cs ans answers = some s := by
  unfold get_next_step
  rw [hs]
  simp only [hn, hheur, if_true]
  unfold evaluate_logic
  simp [hraw, hclean, hsem, hkey]

/-- C1: For every catalog step whose next rule is a range pair (it has both
`next_step_in_range` and `next_step_out_range`), and for every integer
answer, `get_next_step` returns the in-range successor exactly when
resolved min ≤ answer ≤ max (both bounds inclusive, with the source's
defaults for an absent bound) and the out-of-range successor otherwise. -/
theorem get_next_step_range_pair (sid : String) (cfg : StepConfig) (a b : String)
    (hs : lookupStep sid = some cfg)
    (ha : cfg.next_step_in_range = some a) (hb : cfg.next_step_out_range = some b)
    (n : Int) (answers : AnswerSet) :
    get_next_step sid (.int n) answers =
      some (if litBound cfg.min (-999999) ≤ n ∧ n ≤ litBound cfg.max 999999 then a else b) := by
  obtain ⟨p, hp, hpc⟩ : ∃ p ∈ SURVEY_DATA, p.2 = cfg := by
    unfold lookupStep at hs
    cases hfind : SURVEY_DATA.find? (fun q => q.1 == sid) with
    | none => rw [hfind] at hs; cases hs
    | some p =>
      rw [hfind] at hs
      exact ⟨p, List.mem_of_find?_eq_some hfind, by injection hs⟩
  have hshape := range_pair_shape p hp (by rw [hpc, ha]; rfl) (by rw [hpc, hb]; rfl)
  rw [hpc] at hshape
  exact range_pair_step sid cfg a b n answers hs
    (Option.isNone_iff_eq_none.mp hshape.1) hshape.2.1 hshape.2.2.1 hshape.2.2.2 ha hb

/-- Witness for C1 at step S7 (bounds 2–35): the boundary answers 2 and 35
and the interior answer 5 route to S10, the answer 1 routes to TERMINATE. -/
theorem get_next_step_range_pair_witness :
    get_next_step "S7" (.int 5) [] = some "S10" ∧
    get_next_step "S7" (.int 2) [] = some "S10" ∧
    get_next_step "S7" (.int 35) [] = some "S10" ∧
    get_next_step "S7" (.int 1) [] = some "TERMINATE" := by
  have h := fun n => get_next_step_range_pair "S7"
    ⟨"number", [], some (.int 2), some (.int 35), none, some "S10", some "TERMINATE"⟩
    "S10" "TERMINATE" rfl rfl rfl n []
  refine ⟨?_, ?_, ?_, ?_⟩ <;> rw [h] <;> decide

/-- C2 (failing input): at the multiple-choice step A6, whose next rule is
the dict `{"default": "A7"}`, resolving a list answer raises an uncaught
`TypeError` (`answer in logic` with an unhashable list) instead of
returning the fail-closed TERMINATE. -/
theorem get_next_step_raises_on_list_answer :
    get_next_step "A6" (.list ["Caucasian/White", "African-American"]) [] = none := by decide

/-- C6: `go_back` on a state with empty step history returns an error
result, surfaced as having nothing to go back to, and leaves the whole
session state unchanged. -/
theorem go_back_empty_history (st : SessionState) (h : st.step_history = []) :
    (go_back st).1.status = "error" ∧
    (go_back st).1.message =
      some "We're already at the first question. There's nothing to go back to." ∧
    (go_back st).2 = st := by
  simp [go_back, h]

/-- Witness for C6 at the initial state. -/
theorem go_back_empty_history_witness :
    (go_back ⟨"S1", [], []⟩).1.status = "error" ∧
    (go_back ⟨"S1", [], []⟩).1.message =
      some "We're already at the first question. There's nothing to go back to." ∧
    (go_back ⟨"S1", [], []⟩).2 = ⟨"S1", [], []⟩ :=
  go_back_empty_history ⟨"S1", [], []⟩ rfl

/-- C8: whenever evaluation of a (nonempty) expression fails,
`evaluate_logic` returns the literal cleaned expression when it names a
catalog step or a terminal outcome, and otherwise the unresolved sentinel
(`none`) — it never propagates the exception. -/
theorem evaluate_logic_failure (raw : String) (sem : AnswerSet → Option PyVal)
    (answers : AnswerSet) (hraw : raw ≠ "") (hfail : sem answers = none) :
    evaluate_logic raw sem answers =
      (if isStepKey (cleanExpr raw) || cleanExpr raw == "TERMINATE" || cleanExpr raw == "END"
       then some (.str (cleanExpr raw)) else none) := by
  have h1 : (raw == "") = false := by simpa using hraw
  by_cases h2 : cleanExpr raw = ""
  · have h3 : isStepKey "" = false := by decide
    simp [evaluate_logic, h1, h2, h3]
  · have h2' : (cleanExpr raw == "") = false := by simpa using h2
    simp [evaluate_logic, h1, h2', hfail]

/-- Witness for C8: a failing evaluation of "NOPE" (not a step id) yields
the unresolved sentinel, and of "S2" (a step id) yields the literal. -/
theorem evaluate_logic_failure_witness :
    evaluate_logic "NOPE" (fun _ => none) [] = none ∧
    evaluate_logic "S2" (fun _ => none) [] = some (.str "S2") := by
  constructor
  · rw [evaluate_logic_failure "NOPE" (fun _ => none) [] (by decide) rfl]; decide
  · rw [evaluate_logic_failure "S2" (fun _ => none) [] (by decide) rfl]; decide

/-- C10: `get_next_step` writes the tentative answer only into its freshly
allocated private copy of the answer dict, so the dict the caller passed in
(reference `r`) holds the same value after the call as before. -/
theorem get_next_step_no_mutation (cs : String) (ans : PyVal) (h : DictHeap) (r : Nat)
    (hr : (heapGet h r).isSome = true) :
    heapGet (get_next_step_refs cs ans h r).2 r = heapGet h r := by
  have hmem : r ∈ h.map (fun p => p.1) := by
    unfold heapGet at hr
    cases hfind : h.find? (fun p => p.1 == r) with
    | none => rw [hfind] at hr; simp at hr
    | some p =>
      have hpr : p.1 = r := by simpa using List.find?_some hfind
      exact hpr ▸ List.mem_map_of_mem _ (List.mem_of_find?_eq_some hfind)
  have hlt : r < freshRef h :=
    Nat.lt_succ_of_le (mem_le_foldr_max r _ hmem)
  have hne : (freshRef h == r) = false := by
    simpa using Nat.ne_of_gt hlt
  unfold get_next_step_refs heapGet
  simp [List.find?, hne]

/-- Witness for C10 on a one-reference heap. -/
theorem get_next_step_no_mutation_witness :
    heapGet (get_next_step_refs "S1" (.int 1) [(0, [("S1", PyVal.str "x")])] 0).2 0 =
      heapGet [(0, [("S1", PyVal.str "x")])] 0 :=
  get_next_step_no_mutation "S1" (.int 1) [(0, [("S1", PyVal.str "x")])] 0 (by decide)

/-- C3: a speculative `save_answer` (`dry_run = true`) leaves the session
state — current step, answer set and step history — unchanged, and whenever
the predicted next step for a valid answer is the TERMINATE terminal, the
result reports the prediction with a termination reason naming the current
step. -/
theorem save_answer_dry_run_frame (st : SessionState) (ans : String) :
    (save_answer st ans true).2 = st ∧
    (∀ ext nxt,
      ext = extractAnswer
              (match lookupStep st.current_step with | some c => c.type | none => "choice")
              (match lookupStep st.current_step with | some c => c.options | none => []) ans →
      (validate_answer st.current_step ext st.answers).1 = true →
      get_next_step st.current_step ext (setA st.answers st.current_step ext) = some nxt →
      nxt = "TERMINATE" →
      ∃ res, (save_answer st ans true).1 = some res ∧
        res.status = "dry_run" ∧ res.dry_run = some true ∧
        res.predicted_next_step = some "TERMINATE" ∧
        res.will_terminate = some true ∧
        res.termination_reason = some ("Disqualified at " ++ st.current_step)) := by
  constructor
  · unfold save_answer
    dsimp only
    split
    · rfl
    · split
      · split <;> rfl
      · rename_i hfalse; exact absurd rfl hfalse
  · intro ext nxt hext hv hn ht
    subst hext; subst ht
    unfold save_answer
    dsimp only
    rw [hv]
    simp only [Bool.not_true, Bool.false_eq_true, if_false, if_true, hn]
    exact ⟨_, rfl, rfl, rfl, rfl, rfl, rfl⟩

/-- Witness for C3: a speculative disqualifying consent refusal at S16. -/
theorem save_answer_dry_run_frame_witness :
    (save_answer ⟨"S16", [], []⟩ "I do not consent" true).2 = ⟨"S16", [], []⟩ ∧
    ∃ res, (save_answer ⟨"S16", [], []⟩ "I do not consent" true).1 = some res ∧
      res.status = "dry_run" ∧ res.predicted_next_step = some "TERMINATE" ∧
      res.will_terminate = some true ∧
      res.termination_reason = some "Disqualified at S16" := by
  have h := save_answer_dry_run_frame ⟨"S16", [], []⟩ "I do not consent"
  refine ⟨h.1, ?_⟩
  obtain ⟨res, h1, h2, _, h4, h5, h6⟩ :=
    h.2 (PyVal.str "I do not consent") "TERMINATE" (by decide) (by decide) (by decide) rfl
  exact ⟨res, h1, h2, h4, h5, h6⟩

/-- C4 (amended): Advance via `save_answer` followed by `go_back` restores
`current_step` and the step history, while the answer set keeps the answer
recorded by the advance — the *extracted* form of the submitted answer
(equal to the submitted answer whenever the extraction leaves it
unchanged); the pre-answer answer set is not restored. -/
theorem advance_go_back_round_trip (st : SessionState) (ans : String) (ext : PyVal) (nxt : String)
    (hext : ext = extractAnswer
              (match lookupStep st.current_step with | some c => c.type | none => "choice")
              (match lookupStep st.current_step with | some c => c.options | none => []) ans)
    (hv : (validate_answer st.current_step ext st.answers).1 = true)
    (hn : get_next_step st.current_step ext (setA st.answers st.current_step ext) = some nxt) :
    (go_back (save_answer st ans false).2).2.current_step = st.current_step ∧
    getA (go_back (save_answer st ans false).2).2.answers st.current_step = some ext ∧
    (go_back (save_answer st ans false).2).2.step_history = st.step_history := by
  subst hext
  have hst2 : (save_answer st ans false).2 =
      ⟨nxt, setA st.answers st.current_step
              (extractAnswer
                (match lookupStep st.current_step with | some c => c.type | none => "choice")
                (match lookupStep st.current_step with | some c => c.options | none => []) ans),
        st.step_history ++ [st.current_step]⟩ := by
    unfold save_answer
    dsimp only
    rw [hv]
    simp only [Bool.not_true, Bool.false_eq_true, if_false, hn]
    split
    · rfl
    · split <;> rfl
  rw [hst2]
  unfold go_back
  have hne : (st.step_history ++ [st.current_step]).isEmpty = false := by simp
  simp only [hne, Bool.false_eq_true, if_false]
  refine ⟨?_, ?_, ?_⟩
  · simp [List.getLast?_concat]
  · simp [List.getLast?_concat, getA_setA]
  · simp [List.dropLast_concat]

/-- Counterexample to C4 as stated: at step S10 the submission " 75" is
accepted by the validator (Python `int` ignores surrounding whitespace), the
advance succeeds, and after `go_back` the answer set maps S10 to the
extracted "75" — not to the submitted answer " 75". -/
theorem advance_go_back_counterexample :
    (validate_answer "S10" (.str " 75") []).1 = true ∧
    ((save_answer ⟨"S10", [], []⟩ " 75" false).1.map SaveResult.status = some "success") ∧
    (go_back (save_answer ⟨"S10", [], []⟩ " 75" false).2).2.current_step = "S10" ∧
    getA (go_back (save_answer ⟨"S10", [], []⟩ " 75" false).2).2.answers "S10" = some (.str "75") ∧
    getA (go_back (save_answer ⟨"S10", [], []⟩ " 75" false).2).2.answers "S10" ≠ some (.str " 75") := by
  decide

/-- Witness for the amended C4: advancing from S10 with "75" and going back
restores step and history and keeps the recorded answer. -/
theorem advance_go_back_round_trip_witness :
    (go_back (save_answer ⟨"S10", [], []⟩ "75" false).2).2.current_step = "S10" ∧
    getA (go_back (save_answer ⟨"S10", [], []⟩ "75" false).2).2.answers "S10" = some (.str "75") ∧
    (go_back (save_answer ⟨"S10", [], []⟩ "75" false).2).2.step_history = [] :=
  advance_go_back_round_trip ⟨"S10", [], []⟩ "75" (.str "75") "S11"
    (by decide) (by decide) (by decide)

/-- C5 (amended): for a step id left unchanged by `navigate_to_question`'s
case normalization, a jump to an id occurring in the history truncates the
history to just before its first occurrence and moves there; a jump to a
catalog id not in the history leaves the history unchanged; and a jump to
an id that is neither a catalog step nor a terminal returns an error result
with the state unchanged. -/
theorem navigate_to_question_spec (st : SessionState) (sid : String)
    (hfix : normStepId sid = sid) :
    ((isStepKey sid = true ∨ sid = "END" ∨ sid = "TERMINATE") → sid ∈ st.step_history →
      (navigate_to_question st (some sid) none).2 =
        ⟨sid, st.answers, st.step_history.take (st.step_history.indexOf sid)⟩) ∧
    (isStepKey sid = true → sid ∉ st.step_history →
      (navigate_to_question st (some sid) none).2.step_history = st.step_history) ∧
    (isStepKey sid = false → sid ≠ "END" → sid ≠ "TERMINATE" →
      (navigate_to_question st (some sid) none).1.status = "error" ∧
      (navigate_to_question st (some sid) none).2 = st) := by
  have hkeyne : isStepKey sid = true → sid ≠ "" := by
    intro hk he; rw [he] at hk; exact absurd hk (by decide)
  refine ⟨?_, ?_, ?_⟩
  · intro hvalid hmem
    have hcont : st.step_history.contains sid = true := by simpa using hmem
    unfold navigate_to_question navFinish
    rcases hvalid with hk | rfl | rfl
    · simp [hfix, hk, hkeyne hk, hcont]
      exact fun h => absurd hmem h
    · simp [hfix, hcont, (by decide : isStepKey "END" = false)]
      exact fun h => absurd hmem h
    · simp [hfix, hcont, (by decide : isStepKey "TERMINATE" = false)]
      exact fun h => absurd hmem h
  · intro hk hmem
    have hcont : st.step_history.contains sid = false := by simpa using hmem
    unfold navigate_to_question navFinish
    simp [hfix, hk, hkeyne hk, hcont]
    exact fun h => absurd h hmem
  · intro hk hE hT
    by_cases hse : sid = ""
    · subst hse
      unfold navigate_to_question
      simp
    · unfold navigate_to_question
      simp [hfix, hk, hse, hE, hT]

/-- Counterexample to C5 as stated: "T1b_2" is a catalog step occurring in
the history, yet `navigate_to_question` uppercases it to the unknown id
"T1B_2" and returns an error without truncating the history or moving. -/
theorem navigate_mixed_case_counterexample :
    isStepKey "T1b_2" = true ∧
    "T1b_2" ∈ ["T1", "T1b_1", "T1b_2"] ∧
    (navigate_to_question ⟨"T1b_3", [], ["T1", "T1b_1", "T1b_2"]⟩ (some "T1b_2") none).1.status
      = "error" ∧
    (navigate_to_question ⟨"T1b_3", [], ["T1", "T1b_1", "T1b_2"]⟩ (some "T1b_2") none).2.current_step
      ≠ "T1b_2" ∧
    (navigate_to_question ⟨"T1b_3", [], ["T1", "T1b_1", "T1b_2"]⟩ (some "T1b_2") none).2.step_history
      = ["T1", "T1b_1", "T1b_2"] := by
  decide

/-- Witness for the amended C5: jumping to "S3", which sits second in the
history, truncates the history to just before it; jumping to the unknown
"S99" errors and leaves the state unchanged. -/
theorem navigate_to_question_spec_witness :
    (navigate_to_question ⟨"S5", [], ["S1", "S3"]⟩ (some "S3") none).2 =
      ⟨"S3", [], ["S1"]⟩ ∧
    (navigate_to_question ⟨"S5", [], ["S1", "S3"]⟩ (some "S99") none).1.status = "error" ∧
    (navigate_to_question ⟨"S5", [], ["S1", "S3"]⟩ (some "S99") none).2 = ⟨"S5", [], ["S1", "S3"]⟩ := by
  refine ⟨?_, ?_, ?_⟩
  · have h := (navigate_to_question_spec ⟨"S5", [], ["S1", "S3"]⟩ "S3" (by decide)).1
      (Or.inl (by decide)) (by decide)
    simpa using h
  · exact ((navigate_to_question_spec ⟨"S5", [], ["S1", "S3"]⟩ "S99" (by decide)).2.2
      (by decide) (by decide) (by decide)).1
  · exact ((navigate_to_question_spec ⟨"S5", [], ["S1", "S3"]⟩ "S99" (by decide)).2.2
      (by decide) (by decide) (by decide)).2

/-- C7: for every numeric step (number / number_or_unknown) whose bounds
resolve to `mn` and `mx`, the validator accepts an answer iff it equals one
of the step's special non-numeric tokens or parses as an integer within
[mn, mx] (both boundaries included); an integer outside the bounds is
rejected with the message stating the valid numeric range. -/
theorem validate_answer_numeric (sid : String) (cfg : StepConfig) (ans : PyVal)
    (answers : AnswerSet) (mn mx : Int)
    (hs : lookupStep sid = some cfg)
    (ht : cfg.type = "number" ∨ cfg.type = "number_or_unknown")
    (hmn : vBound cfg.min 0 answers = some mn)
    (hmx : vBound cfg.max 10000 answers = some mx) :
    ((validate_answer sid ans answers).1 = true ↔
      (pyInList ans cfg.options = true ∨ ∃ n, pyIntOf ans = some n ∧ mn ≤ n ∧ n ≤ mx)) ∧
    (∀ n, pyIntOf ans = some n → pyInList ans cfg.options = false → ¬(mn ≤ n ∧ n ≤ mx) →
      validate_answer sid ans answers =
        (false, "Please enter a number between " ++ toString mn ++ " and " ++ toString mx)) := by
  have hbranch : validate_answer sid ans answers =
      (if pyInList ans cfg.options then (true, "Valid")
       else
         match pyIntOf ans, vBound cfg.min 0 answers, vBound cfg.max 10000 answers with
         | some num, some mnv, some mxv =>
           if mnv ≤ num ∧ num ≤ mxv then (true, "Valid")
           else (false, "Please enter a number between " ++ toString mnv ++ " and " ++ toString mxv)
         | _, _, _ => (false, "Please enter a valid number")) := by
    unfold validate_answer
    rw [hs]
    dsimp only
    rcases ht with ht | ht <;> rw [ht] <;> rfl
  constructor
  · by_cases hopt : pyInList ans cfg.options
    · simp [hbranch, hopt]
    · cases hint : pyIntOf ans with
      | none => simp [hbranch, hopt, hint, hmn, hmx]
      | some n =>
        by_cases hr : mn ≤ n ∧ n ≤ mx
        · simp [hbranch, hopt, hint, hmn, hmx, hr]
        · simp [hbranch, hopt, hint, hmn, hmx, hr]
  · intro n hint hopt hr
    simp [hbranch, hopt, hint, hmn, hmx, hr]

/-- Witness for C7 at S10 (bounds 70–100): the boundary 100 is accepted,
69 is rejected with the range message. -/
theorem validate_answer_numeric_witness :
    (validate_answer "S10" (.str "100") []).1 = true ∧
    validate_answer "S10" (.str "69") [] =
      (false, "Please enter a number between 70 and 100") := by
  constructor
  · exact (validate_answer_numeric "S10"
      ⟨"number", [], some (.int 70), some (.int 100), none, some "S11", some "TERMINATE"⟩
      (.str "100") [] 70 100 rfl (Or.inl rfl) rfl rfl).1.mpr
      (Or.inr ⟨100, rfl, by decide, by decide⟩)
  · have h := (validate_answer_numeric "S10"
      ⟨"number", [], some (.int 70), some (.int 100), none, some "S11", some "TERMINATE"⟩
      (.str "69") [] 70 100 rfl (Or.inl rfl) rfl rfl).2 69 rfl rfl (by decide)
    simpa using h

set_option maxRecDepth 200000 in
/-- C9: at step S1, any selection of catalog options including "Medical
Equipment Manufacturer" resolves to TERMINATE regardless of the other
selections, and any selection including the pharmaceutical-affiliation
option but none of the five disqualifying options resolves to S2. -/
theorem s1_resolution (L : List String) (answers : AnswerSet) (hsub : L.Sublist s1Options) :
    ("Medical Equipment Manufacturer" ∈ L →
      get_next_step "S1" (.list L) answers = some "TERMINATE") ∧
    (pharmaOpt ∈ L → (∀ d ∈ s1Disq, d ∉ L) →
      get_next_step "S1" (.list L) answers = some "S2") := by
  have hcfg : lookupStep "S1" =
      some ⟨"multiple_choice", s1Options, none, none, some (.str s1NextRaw semS1), none, none⟩ := rfl
  constructor
  · intro hmem
    apply step1_expr_fires "S1" _ s1NextRaw semS1 (.list L) answers "TERMINATE" hcfg rfl
      (by decide) (by decide) (by decide) ?_ (by decide)
    unfold semS1
    have hout : outGet (setA answers "S1" (.list L)) "S1" (.str "") = .list L := by
      simp [outGet, getA_setA]
    rw [hout]
    have hIn : inStrB "Medical Equipment Manufacturer" (pyStrOfVal (.list L)) = true :=
      mem_inStr_pyList _ L hmem (by decide)
    have hany : s1Disq.any (fun x => inStrB x (pyStrOfVal (.list L))) = true :=
      List.any_eq_true.mpr ⟨"Medical Equipment Manufacturer", by decide, hIn⟩
    simp [hany]
  · intro hph hdq
    have hLf : L.filter (fun x => !(s1Disq.contains x)) = L := by
      apply List.filter_eq_self.mpr
      intro a ha
      have hnd : a ∉ s1Disq := fun hd => hdq a hd ha
      simpa using hnd
    have hsub2 := List.Sublist.filter (fun x => !(s1Disq.contains x)) hsub
    rw [hLf] at hsub2
    have hopts : s1Options.filter (fun x => !(s1Disq.contains x)) =
        [pharmaOpt, "None of the above"] := by decide
    rw [hopts] at hsub2
    rcases sublist_pair hsub2 with rfl | rfl | rfl | rfl
    · cases hph
    · apply step1_expr_fires "S1" _ s1NextRaw semS1 (.list [pharmaOpt]) answers "S2" hcfg rfl
        (by decide) (by decide) (by decide) ?_ (by decide)
      unfold semS1
      rw [show outGet (setA answers "S1" (.list [pharmaOpt])) "S1" (.str "") = .list [pharmaOpt]
        from by simp [outGet, getA_setA]]
      decide
    · exact absurd hph (by decide)
    · apply step1_expr_fires "S1" _ s1NextRaw semS1 (.list [pharmaOpt, "None of the above"])
        answers "S2" hcfg rfl (by decide) (by decide) (by decide) ?_ (by decide)
      unfold semS1
      rw [show outGet (setA answers "S1" (.list [pharmaOpt, "None of the above"])) "S1" (.str "")
          = .list [pharmaOpt, "None of the above"] from by simp [outGet, getA_setA]]
      decide

/-- Witness for C9: the pharmaceutical option together with "None of the
above" routes to S2, while a selection containing "Medical Equipment
Manufacturer" routes to TERMINATE. -/
theorem s1_resolution_witness :
    get_next_step "S1" (.list [pharmaOpt, "None of the above"]) [] = some "S2" ∧
    get_next_step "S1"
      (.list ["Medical Equipment Manufacturer", "None of the above"]) [] = some "TERMINATE" := by
  constructor
  · exact (s1_resolution [pharmaOpt, "None of the above"] [] (by decide)).2
      (by decide) (by decide)
  · exact (s1_resolution ["Medical Equipment Manufacturer", "None of the above"] []
      (by decide)).1 (by decide)
